import Mathlib

/-!
Verification of the GPZU permit parser (`parser.py`) against its
natural-language specification.

The development shallowly embeds the parser's data model and operations:

* page text is an ordered association list from page number to page text;
* raw tables are grids of optional string cells (a `none` cell models a
  pandas `NaN`), with a header row of column labels;
* Python exceptions are modelled with `Except`: `KeyError`, `IndexError`,
  `NameError` (an unbound local read), `ValueError`, `TypeError`,
  `AttributeError`;
* Python regular-expression scans used by the parser are hand-compiled to
  executable scanners over `List Char` with the same leftmost,
  non-overlapping, greedy semantics on the character classes involved
  (`\d` is modelled as the ASCII digits, which is what the documents use);
* the morphological analyser (pymorphy2), the IEEE-double operations and
  the district reference table are external services; they enter as
  explicit read-only parameters, as the specification directs.

Definitions are named after the Python methods they translate (with the
leading underscore dropped).  Theorems about the claims come after all
definitions.
-/

set_option maxRecDepth 4000

namespace OKS

/-! ### Python string primitives -/

/-- `dropWhile` never lengthens a list (used for termination of scanners). -/
theorem lenDropWhileLe {α : Type} (p : α → Bool) (l : List α) :
    (l.dropWhile p).length ≤ l.length := by
  induction l with
  | nil => simp [List.dropWhile]
  | cons a l ih =>
      simp only [List.dropWhile]
      cases p a
      · simp
      · simp only [List.length_cons]
        omega

/-- `pre` is a prefix of `l` (Python `str.startswith` on char lists). -/
def listStarts : List Char → List Char → Bool
  | [], _ => true
  | _ :: _, [] => false
  | a :: pre2, b :: l2 => a == b && listStarts pre2 l2

/-- `needle` occurs as a contiguous run inside the list (Python `in`). -/
def listHasInfix (needle : List Char) : List Char → Bool
  | [] => listStarts needle []
  | c :: cs => listStarts needle (c :: cs) || listHasInfix needle cs

/-- Python substring test `sub in s`. -/
def pyContains (s sub : String) : Bool := listHasInfix sub.toList s.toList

/-- Python `s.startswith(pre)`. -/
def pyStarts (s pre : String) : Bool := listStarts pre.toList s.toList

/-- Python `s.endswith(suf)`. -/
def pyEnds (s suf : String) : Bool := listStarts suf.toList.reverse s.toList.reverse

/-- Python `sep.join(parts)`. -/
def pyJoin (sep : String) : List String → String
  | [] => ""
  | [x] => x
  | x :: xs => x ++ sep ++ pyJoin sep xs

/-- Python whitespace (the ASCII part, which covers the documents). -/
def pyIsSpace (c : Char) : Bool :=
  c == ' ' || c == '\t' || c == '\n' || c == '\r' || c == '\x0b' || c == '\x0c'

/-- Python `s.strip()` restricted to the whitespace above. -/
def pyStrip (s : String) : String :=
  String.mk (((s.toList.dropWhile pyIsSpace).reverse.dropWhile pyIsSpace).reverse)

/-- Python `s.split()` — split on whitespace runs, dropping empty pieces. -/
def pySplitWsGo : List Char → List String
  | [] => []
  | c :: cs =>
      if pyIsSpace c then pySplitWsGo cs
      else
        String.mk (c :: cs.takeWhile (fun x => !pyIsSpace x)) ::
          pySplitWsGo (cs.dropWhile (fun x => !pyIsSpace x))
termination_by l => l.length
decreasing_by
  · simp
  · simp only [List.length_cons]
    have := lenDropWhileLe (fun x => !pyIsSpace x) cs
    omega

/-- Python `s.split()`. -/
def pySplitWs (s : String) : List String := pySplitWsGo s.toList

/-- Split at the first occurrence of `sep`: the part before and the part
after, or `none` when `sep` does not occur. -/
def splitFirst (sep : List Char) : List Char → Option (List Char × List Char)
  | [] => none
  | c :: cs =>
      if listStarts sep (c :: cs) then some ([], (c :: cs).drop sep.length)
      else (splitFirst sep cs).map (fun p => (c :: p.1, p.2))

/-- Repeated `splitFirst` (fueled so that the kernel can evaluate it). -/
def splitOnListF : Nat → List Char → List Char → List (List Char)
  | 0, _, l => [l]
  | fuel + 1, sep, l =>
      match splitFirst sep l with
      | none => [l]
      | some (before, after) => before :: splitOnListF fuel sep after

/-- Python `s.split(sep)` for a non-empty separator. -/
def pySplit (s sep : String) : List String :=
  if sep == "" then [s]
  else (splitOnListF (s.toList.length + 1) sep.toList s.toList).map String.mk

/-- Python `s.replace(old, new)` for a non-empty `old`: replace every
non-overlapping occurrence, left to right. -/
def replaceListF : Nat → List Char → List Char → List Char → List Char
  | 0, _, _, l => l
  | fuel + 1, pat, rep, l =>
      match splitFirst pat l with
      | none => l
      | some (before, after) => before ++ rep ++ replaceListF fuel pat rep after

/-- Python `s.replace(old, new)` (non-empty `old` — all uses here). -/
def pyReplace (s pat rep : String) : String :=
  if pat == "" then s
  else String.mk (replaceListF (s.toList.length + 1) pat.toList rep.toList s.toList)

/-- Python `s.split(sep, maxsplit=1)`: split at the first occurrence only. -/
def pySplit1 (s sep : String) : List String :=
  match pySplit s sep with
  | [] => [s]
  | [x] => [x]
  | x :: xs => [x, pyJoin sep xs]

/-- Python `s.rsplit(sep, maxsplit=1)`: split at the last occurrence only. -/
def pyRsplit1 (s sep : String) : List String :=
  match (pySplit s sep).reverse with
  | [] => [s]
  | [x] => [x]
  | x :: xs => [pyJoin sep xs.reverse, x]

/-! ### Digit runs (`re.findall(r"\d+", ...)`) -/

/-- All maximal ASCII-digit runs of the list, left to right
(`re.findall(r"\d+", s)` on the documents' ASCII digits). -/
def findDigitRuns : List Char → List (List Char)
  | [] => []
  | c :: cs =>
      if c.isDigit then
        (c :: cs.takeWhile Char.isDigit) :: findDigitRuns (cs.dropWhile Char.isDigit)
      else
        findDigitRuns cs
termination_by l => l.length
decreasing_by
  · simp only [List.length_cons]
    have := lenDropWhileLe Char.isDigit cs
    omega
  · simp

/-- Numeric value of a digit run (Python `int` on a digit string). -/
def digitsToNat (l : List Char) : Nat :=
  l.foldl (fun acc c => acc * 10 + (c.toNat - '0'.toNat)) 0

/-! ### `_postprocess_area` -/

/-- Translation of `Parser._postprocess_area` (src/parser.py:798-819), with
the raw `area` string passed explicitly (`none` models a non-`str` value,
for which the method returns `None`).  The first digit run is parsed as an
integer and scaled by 10000 when the string mentions `"га"` (hectares). -/
def postprocess_area (area : Option String) : Option Nat :=
  match area with
  | none => none
  | some a =>
      let unitHa := pyContains a "га"
      match findDigitRuns a.toList with
      | [] => none
      | r :: _ =>
          let v := digitsToNat r
          some (if unitHa then v * 10000 else v)

/-! ### `_postprocess_usekinds` -/

/-- One character of the class `[0123456789.]`. -/
def isCodeChar (c : Char) : Bool := c.isDigit || c == '.'

/-- `re.findall(r"\([0123456789.]+\)", u)` with the surrounding parentheses
stripped from each match (the `match[1:-1]` in the source).  Fueled by the
input length so that the kernel can evaluate it. -/
def scanCodesF : Nat → List Char → List String
  | 0, _ => []
  | _ + 1, [] => []
  | fuel + 1, c :: cs =>
      if c == '(' then
        if (cs.takeWhile isCodeChar).isEmpty then scanCodesF fuel cs
        else
          match cs.dropWhile isCodeChar with
          | ')' :: rest2 => String.mk (cs.takeWhile isCodeChar) :: scanCodesF fuel rest2
          | _ => scanCodesF fuel cs
      else
        scanCodesF fuel cs

/-- `re.findall(r"\([0123456789.]+\)", u)`, parentheses stripped. -/
def scanCodes (l : List Char) : List String := scanCodesF l.length l

/-- `re.match(r"2[\d.]+", code)` succeeds, or the code is exactly `"13.2"`
— the residential ("living") code test from `_postprocess_usekinds`. -/
def isLivingCode (code : String) : Bool :=
  (match code.toList with
   | '2' :: c :: _ => isCodeChar c
   | _ => false) || code == "13.2"

/-- Translation of `Parser._postprocess_usekinds` (src/parser.py:771-796).
Returns the pair (condition group, code list).  Note that the guard of the
early branch is, by Python operator precedence,
`(len(codes) == 0 and "не распространяется" in u) or ("не устанавливается" in u)`. -/
def postprocess_usekinds (usekinds : Option String) : Option String × Option String :=
  match usekinds with
  | none => (none, none)
  | some u =>
      let codes := scanCodes u.toList
      if (codes.length == 0 && pyContains u "не распространяется")
          || pyContains u "не устанавливается" then
        (some "Нежилая", some (pyStrip u))
      else
        let anyLiving := codes.any isLivingCode
        let anyNonliving := codes.any (fun c => !isLivingCode c)
        let group :=
          if anyLiving && anyNonliving then "Смешанная"
          else if !anyLiving && anyNonliving then "Нежилая"
          else if anyLiving && !anyNonliving then "Жилая"
          else "-"
        (some group, some (pyJoin "; " codes))

/-! ### Raw page text -/

/-- `self._text`: an ordered mapping from 1-based page number to page
text, kept as an association list in insertion order. -/
def textGet (t : List (Nat × String)) (k : Nat) : Option String :=
  (t.find? (fun p => p.1 == k)).map (fun p => p.2)

/-- `self._text.values()` in insertion order. -/
def textValues (t : List (Nat × String)) : List String := t.map (fun p => p.2)

/-! ### Python exceptions -/

/-- The Python exceptions the parser can raise, as modelled here.
`nameError` models reading a local variable that was never bound
(Python `UnboundLocalError`/`NameError`). -/
inductive PyErr where
  | keyError
  | indexError
  | nameError
  | valueError
  | typeError
  | attributeError
deriving DecidableEq, Repr

instance {ε α : Type} [DecidableEq ε] [DecidableEq α] : DecidableEq (Except ε α) := by
  intro a b
  cases a with
  | error e =>
      cases b with
      | error f =>
          by_cases h : e = f
          · exact isTrue (by rw [h])
          · exact isFalse (by intro hh; injection hh; contradiction)
      | ok bv => exact isFalse (fun hh => Except.noConfusion hh)
  | ok av =>
      cases b with
      | error f => exact isFalse (fun hh => Except.noConfusion hh)
      | ok bv =>
          by_cases h : av = bv
          · exact isTrue (by rw [h])
          · exact isFalse (by intro hh; injection hh; contradiction)

/-! ### Dates (`datetime.date`) -/

/-- A calendar date; mirrors `datetime.date` (valid instances satisfy
`validDate`). -/
structure Date where
  year : Nat
  month : Nat
  day : Nat
deriving DecidableEq, Repr

/-- Gregorian leap year (what `datetime` implements). -/
def isLeap (y : Nat) : Bool := (y % 4 == 0 && y % 100 != 0) || y % 400 == 0

/-- Days in a month of a given year. -/
def daysInMonth (y m : Nat) : Nat :=
  if m == 2 then (if isLeap y then 29 else 28)
  else if m == 4 || m == 6 || m == 9 || m == 11 then 30
  else 31

/-- The construction constraint of `datetime.date(y, m, d)`
(`MINYEAR = 1`, `MAXYEAR = 9999`). -/
def validDate (y m d : Nat) : Bool :=
  1 ≤ y && y ≤ 9999 && 1 ≤ m && m ≤ 12 && 1 ≤ d && d ≤ daysInMonth y m

/-- `datetime.date(y, m, d)`: raises `ValueError` on invalid input. -/
def mkDate (y m d : Nat) : Except PyErr Date :=
  if validDate y m d then .ok ⟨y, m, d⟩ else .error .valueError

/-- Python `date` comparison `a <= b` (lexicographic). -/
def dateLe (a b : Date) : Bool :=
  a.year < b.year ||
    (a.year == b.year &&
      (a.month < b.month || (a.month == b.month && a.day ≤ b.day)))

/-- The successor day; used below to validate the ordinal conversion. -/
def nextDay (d : Date) : Date :=
  if d.day < daysInMonth d.year d.month then ⟨d.year, d.month, d.day + 1⟩
  else if d.month < 12 then ⟨d.year, d.month + 1, 1⟩
  else ⟨d.year + 1, 1, 1⟩

/-- Day count of a date (days since 0000-03-01; the standard civil-calendar
conversion that `datetime.date.toordinal` implements, shifted by a
constant).  Closed-form, so that date arithmetic evaluates in O(1). -/
def days_from_civil (dt : Date) : Nat :=
  let y := if dt.month ≤ 2 then dt.year - 1 else dt.year
  let era := y / 400
  let yoe := y % 400
  let mp := if 2 < dt.month then dt.month - 3 else dt.month + 9
  let doy := (153 * mp + 2) / 5 + dt.day - 1
  let doe := yoe * 365 + yoe / 4 - yoe / 100 + doy
  era * 146097 + doe

/-- Inverse of `days_from_civil` (the conversion behind
`datetime.date.fromordinal`). -/
def civil_from_days (z : Nat) : Date :=
  let era := z / 146097
  let doe := z % 146097
  let yoe := (doe - doe / 1460 + doe / 36524 - doe / 146096) / 365
  let y := yoe + era * 400
  let doy := doe - (365 * yoe + yoe / 4 - yoe / 100)
  let mp := (5 * doy + 2) / 153
  let d := doy - (153 * mp + 2) / 5 + 1
  let m := if mp < 10 then mp + 3 else mp - 9
  if m ≤ 2 then ⟨y + 1, m, d⟩ else ⟨y, m, d⟩

/-- `d + datetime.timedelta(days=n)` (via the ordinal conversion, exactly
as `datetime` computes it). -/
def addDays (d : Date) (n : Nat) : Date := civil_from_days (days_from_civil d + n)

/-! ### `_get_end_date` -/

/-- Translation of `Parser._get_end_date` (src/parser.py:1043-1054):
`date(year+3, month, day)`, then `+ timedelta(days=365)` when the result
lies in `2020-04-06..2021-01-01` or in `2022-04-13..2023-01-01`.
`none` input models an undetermined (`None`) start date, for which the
method returns `None`. -/
def get_end_date (start_date : Option Date) : Except PyErr (Option Date) :=
  match start_date with
  | none => .ok none
  | some date =>
      match mkDate (date.year + 3) date.month date.day with
      | .error e => .error e
      | .ok end_date =>
          if dateLe ⟨2020, 4, 6⟩ end_date && dateLe end_date ⟨2021, 1, 1⟩ then
            .ok (some (addDays end_date 365))
          else if dateLe ⟨2022, 4, 13⟩ end_date && dateLe end_date ⟨2023, 1, 1⟩ then
            .ok (some (addDays end_date 365))
          else
            .ok (some end_date)

/-- Modelled from the spec for the refinement in claim C5: "`end_date` =
`start_date + 3 years`, then extended by one further year if the
unextended result falls within either of two fixed legislative-extension
windows".  "Plus 3 years" / "one further year" here mean the same
month/day with the year incremented. -/
def spec_in_extension_windows (b : Date) : Bool :=
  (dateLe ⟨2020, 4, 6⟩ b && dateLe b ⟨2021, 1, 1⟩) ||
    (dateLe ⟨2022, 4, 13⟩ b && dateLe b ⟨2023, 1, 1⟩)

/-- The end date as the specification words it (see
`spec_in_extension_windows`). -/
def spec_end_date (d : Date) : Date :=
  let b : Date := ⟨d.year + 3, d.month, d.day⟩
  if spec_in_extension_windows b then ⟨b.year + 1, b.month, b.day⟩ else b

/-! ### `_extract_number` and `_set_type` -/

/-- First line of the list starting with `"№"`, stripped of all `"№"`
marks and surrounding whitespace; `""` when no line matches. -/
def firstNumberLine : List String → String
  | [] => ""
  | s :: rest =>
      if pyStarts s "№" then pyStrip (pyReplace s "№" "") else firstNumberLine rest

/-- Translation of `Parser._extract_number` (src/parser.py:490-499).
`self._text[1]` raises `KeyError` when page 1 is absent. -/
def extract_number (text : List (Nat × String)) : Except PyErr String :=
  match textGet text 1 with
  | none => .error .keyError
  | some page1 => .ok (firstNumberLine (pySplit page1 "\n"))

/-- Translation of `Parser._set_type` (src/parser.py:220-224): the stored
variant is overwritten only when the number has a recognized prefix;
otherwise the previous value (initially `None`) persists. -/
def set_type (currentType : Option String) (number : String) : Option String :=
  if pyStarts number "RU" then some "RU"
  else if pyStarts number "РФ" then some "РФ"
  else currentType

/-! ### Anchor maps and `_get_attr_by_position` -/

/-- One anchor-map entry: `(first line of the header, first line of the
next header, offset to the first value line, value length — `none` when
the value runs until the stop header). -/
structure AnchorEntry where
  start_header : String
  stop_header : String
  offset : Nat
  length : Option Nat

/-- `Parser.HEADERS_RU` (src/parser.py:26-63). -/
def HEADERS_RU : List (String × AnchorEntry) := [
  ("rightsholder",
    ⟨"Градостроительный план земельного участка подготовлен на основании",
     "Местонахождение земельного участка", 1, none⟩),
  ("location",
    ⟨"Местонахождение земельного участка",
     "Описание границ земельного участка:", 1, none⟩),
  ("cad_number",
    ⟨"Кадастровый номер земельного участка",
     "Площадь земельного участка", 1, some 1⟩),
  ("area",
    ⟨"Площадь земельного участка",
     "Информация о расположенных в границах земельного участка объектах капитального строительства",
     1, some 1⟩),
  ("ppt_pmt",
    ⟨"Реквизиты проекта планировки территории и (или) проекта межевания территории",
     "Градостроительный план подготовлен", 3, none⟩),
  ("usekinds",
    ⟨"основные виды разрешенного использования земельного участка:",
     "условно разрешенные виды использования земельного участка:", 1, none⟩),
  ("capital_buildinds_presence",
    ⟨"Информация о расположенных в границах земельного участка объектах капитального строительства",
     "Информация о границах зоны планируемого размещения объекта капитального строительства",
     1, none⟩),
  ("capital_buildings_descr",
    ⟨"3.1. Объекты капитального строительства",
     "3.2. Объекты, включенные в единый государственный реестр объектов культурного наследия",
     1, none⟩),
  ("heritage",
    ⟨"3.2. Объекты, включенные в единый государственный реестр объектов культурного наследия",
     "4. Информация о расчетных показателях минимально допустимого уровня обеспеченности",
     2, none⟩)]

/-- `Parser.HEADERS_RF` (src/parser.py:65-102). -/
def HEADERS_RF : List (String × AnchorEntry) := [
  ("rightsholder",
    ⟨"Градостроительный план земельного участка подготовлен на основании обращения правообладателя",
     "Местонахождение земельного участка", 3, none⟩),
  ("location",
    ⟨"Местонахождение земельного участка",
     "Описание границ земельного участка (образуемого земельного участка):", 1, none⟩),
  ("cad_number",
    ⟨"Кадастровый номер земельного участка (при наличии) или в случае, предусмотренном",
     "Площадь земельного участка", 4, some 1⟩),
  ("area",
    ⟨"Площадь земельного участка",
     "Информация о расположенных в границах земельного участка объектах капитального строительства",
     1, some 1⟩),
  ("ppt_pmt",
    ⟨"Реквизиты проекта планировки территории и (или) проекта межевания территории",
     "Градостроительный план подготовлен", 3, none⟩),
  ("usekinds",
    ⟨"основные виды разрешенного использования земельного участка:",
     "условно разрешенные виды использования земельного участка:", 1, none⟩),
  ("capital_buildinds_presence",
    ⟨"Информация о расположенных в границах земельного участка объектах капитального строительства",
     "Информация о границах зоны планируемого размещения объекта капитального строительства",
     1, none⟩),
  ("capital_buildings_descr",
    ⟨"3.1. Объекты капитального строительства",
     "3.2. Объекты, включенные в единый государственный реестр объектов культурного наследия",
     1, none⟩),
  ("heritage",
    ⟨"3.2. Объекты, включенные в единый государственный реестр объектов культурного наследия",
     "4. Информация о расчетных показателях минимально допустимого уровня обеспеченности",
     2, none⟩)]

/-- Index of the first line starting with the start header. -/
def findStartIdx (text : List String) (start_header : String) : Option Nat :=
  text.findIdx? (fun line => pyStarts line start_header)

/-- Translation of `Parser._get_attr_by_position` (src/parser.py:249-277).
The first guard is Python's
`if not all((text, start, start_header, stop_header, offset)): return None`
— a truthiness test on each argument.  A one-line value reads
`text[attr_value_start]`, which raises `IndexError` past the end; an
unbounded value accumulates lines until the stop header, to the end of
input when the stop header never occurs. -/
def get_attr_by_position (text : List String) (start : Nat)
    (start_header stop_header : String) (offset : Nat) (length : Option Nat) :
    Except PyErr (Option String) :=
  if text.isEmpty || start == 0 || start_header == "" || stop_header == ""
      || offset == 0 then
    .ok none
  else
    match findStartIdx text start_header with
    | none => .ok none
    | some i =>
        let attr_value_start := i + offset
        if length == some 1 then
          match text.get? attr_value_start with
          | some line => .ok (some line)
          | none => .error .indexError
        else
          let value_strings :=
            (text.drop attr_value_start).takeWhile (fun line => !pyStarts line stop_header)
          .ok (some (pyJoin " " value_strings))

/-! ### `_extract_from_text` -/

/-- The attribute loop of `_extract_from_text`: each attribute value is
stored in order; an exception aborts the loop, leaving the attributes
already read (the returned association list) and the error. -/
def extract_attrs (mapping : List (String × AnchorEntry)) (lines : List String) :
    List (String × Option String) × Option PyErr :=
  match mapping with
  | [] => ([], none)
  | (attr, e) :: rest =>
      match get_attr_by_position lines 2 e.start_header e.stop_header e.offset e.length with
      | .ok v =>
          let (tail, err) := extract_attrs rest lines
          ((attr, v) :: tail, err)
      | .error err => ([], some err)

/-- Translation of `Parser._extract_from_text` (src/parser.py:226-247):
no variant means no extraction at all; a variant other than the two known
ones would leave Python's `mapping` local unbound (`NameError`); lines of
all pages are concatenated in page order. -/
def extract_from_text (type? : Option String) (text : List (Nat × String)) :
    List (String × Option String) × Option PyErr :=
  match type? with
  | none => ([], none)
  | some t =>
      if t == "RU" then
        extract_attrs HEADERS_RU (((textValues text).map (fun page => pySplit page "\n")).flatten)
      else if t == "РФ" then
        extract_attrs HEADERS_RF (((textValues text).map (fun page => pySplit page "\n")).flatten)
      else
        ([], some .nameError)

/-! ### Raw tables

A raw table is a header row of column labels plus a rectangular grid of
cells; a cell is `none` for a pandas `NaN` and `some s` for the string
`s` (per the spec's data model, cells are string-typed).  Column labels
start out as strings (`some`); the limits-table rename can turn a label
into `none`.  Tabula assigns distinct column labels, so label-based
renaming and selection coincide with the positional model used here. -/

/-- A raw tabular extract (one pandas DataFrame from `tabula.read_pdf`). -/
structure RawTable where
  header : List (Option String)
  rows : List (List (Option String))
deriving DecidableEq, Repr

/-- Python `str(cell)`: `NaN` prints as `"nan"`. -/
def cellStr : Option String → String
  | none => "nan"
  | some s => s

/-- Truthiness of a cell under pandas `.any()`: `NaN` and the empty
string count as false. -/
def cellTruthy : Option String → Bool
  | none => false
  | some s => !(s == "")

/-- `table.dropna(axis=1, how="all")`: drop every column all of whose
cells are `NaN` (vacuously all of them when the table has no rows). -/
def dropAllNaCols (t : RawTable) : RawTable :=
  let keep := (List.range t.header.length).filter
    (fun j => t.rows.any (fun r => ((r.get? j).getD none).isSome))
  ⟨keep.map (fun j => (t.header.get? j).getD none),
   t.rows.map (fun r => keep.map (fun j => (r.get? j).getD none))⟩

/-- `table.columns[0].startswith(caption)`: `IndexError` on an empty
header, `AttributeError` on a non-string label. -/
def col0StartsWith (t : RawTable) (caption : String) : Except PyErr Bool :=
  match t.header with
  | [] => .error .indexError
  | none :: _ => .error .attributeError
  | some s :: _ => .ok (pyStarts s caption)

/-- The Python pattern `for table in tables: if table.columns[0].startswith(c): break`
— when no table matches, the loop variable is left at the LAST table and
processing continues with it (there is no `else` clause).  Only called
with a non-empty list (the methods return early on `len == 0`). -/
def selectCaptionTable (tables : List RawTable) (caption : String) :
    Except PyErr RawTable :=
  match tables with
  | [] => .error .nameError
  | [t] =>
      match col0StartsWith t caption with
      | .error e => .error e
      | .ok _ => .ok t
  | t :: rest =>
      match col0StartsWith t caption with
      | .error e => .error e
      | .ok true => .ok t
      | .ok false => selectCaptionTable rest caption

/-- The table's first column label is a string starting with the caption
(the condition on which the caption-search loops break). -/
def headerMatchesCaption (t : RawTable) (cap : String) : Bool :=
  match t.header with
  | some s :: _ => pyStarts s cap
  | _ => false

/-! ### `_check_unregulated_objects_table` and
`_extract_from_unregulated_objects_table` -/

/-- Translation of `Parser._check_unregulated_objects_table`
(src/parser.py:339-356): `.ok none` models returning `None` (wrong table
or the marker row never found), `.ok (some false)` a table with fewer
than 3 rows from the marker row on, `.ok (some true)` a populated table. -/
def check_unregulated_objects_table (t : RawTable) : Except PyErr (Option Bool) :=
  go t.rows 0
where
  go : List (List (Option String)) → Nat → Except PyErr (Option Bool)
  | [], _ => .ok none
  | r :: rest, idx =>
      match r with
      | [] => .error .indexError
      | c :: _ =>
          if pyStarts (cellStr c) "1" then
            if !pyEnds (cellStr (r.getLast?.getD none)) "8" then .ok none
            else .ok (if t.rows.length - idx < 3 then some false else some true)
          else go rest (idx + 1)

/-- First table whose header starts with the caption, with its index
(the `for i, table in enumerate(...)` loop). -/
def findCaptionIdx : List RawTable → String → Nat → Except PyErr (Option (Nat × RawTable))
  | [], _, _ => .ok none
  | t :: rest, cap, idx =>
      match col0StartsWith t cap with
      | .error e => .error e
      | .ok true => .ok (some (idx, t))
      | .ok false => findCaptionIdx rest cap (idx + 1)

/-- Translation of `Parser._extract_from_unregulated_objects_table`
(src/parser.py:317-337).  When no table's header matches the caption, the
`has_data` local is never assigned, and the later `if has_data is None`
raises `UnboundLocalError` (modelled as `nameError`); on a `None` check
result the next table, if any, is tried once. -/
def extract_from_unregulated_objects_table (tables : List RawTable) :
    Except PyErr Bool :=
  if tables.length == 0 then .ok false
  else
    match findCaptionIdx tables "Причины отнесения" 0 with
    | .error e => .error e
    | .ok none => .error .nameError
    | .ok (some (i, t)) =>
        match check_unregulated_objects_table t with
        | .error e => .error e
        | .ok (some b) => .ok b
        | .ok none =>
            if i + 1 < tables.length then
              match tables.get? (i + 1) with
              | none => .error .indexError
              | some t2 =>
                  match check_unregulated_objects_table t2 with
                  | .error e => .error e
                  | .ok (some b) => .ok b
                  | .ok none => .ok false
            else .ok false

/-! ### Regular-expression scanners for the limits table -/

/-- One uppercase Cyrillic letter of the class `[А-Я]` (U+0410..U+042F;
the source class excludes Ё). -/
def isUpperCyr (c : Char) : Bool := 0x410 ≤ c.toNat && c.toNat ≤ 0x42F

/-- Python `\w` on the alphabets in play: ASCII alphanumerics, underscore
and the Cyrillic block. -/
def pyIsWordChar (c : Char) : Bool :=
  c.isAlphanum || c == '_' || (0x400 ≤ c.toNat && c.toNat ≤ 0x4FF)

/-- `re.findall(r"[А-Я][^А-Я]+", s)`: sentence-like segments split on
capital-letter boundaries (fueled). -/
def scanSentencesF : Nat → List Char → List String
  | 0, _ => []
  | _ + 1, [] => []
  | fuel + 1, c :: cs =>
      if isUpperCyr c then
        if (cs.takeWhile (fun x => !isUpperCyr x)).isEmpty then scanSentencesF fuel cs
        else
          String.mk (c :: cs.takeWhile (fun x => !isUpperCyr x)) ::
            scanSentencesF fuel (cs.dropWhile (fun x => !isUpperCyr x))
      else scanSentencesF fuel cs

/-- `re.findall(r"[А-Я][^А-Я]+", s)`. -/
def scanSentences (s : String) : List String := scanSentencesF s.toList.length s.toList

/-- `re.search(r"No (\d+)", s)`, returning group 1. -/
def searchNoNumber : List Char → Option String
  | [] => none
  | 'N' :: 'o' :: ' ' :: rest =>
      if (rest.takeWhile Char.isDigit).isEmpty then searchNoNumber ('o' :: ' ' :: rest)
      else some (String.mk (rest.takeWhile Char.isDigit))
  | _ :: cs => searchNoNumber cs

/-- The pattern `\(\d+\.\d+ ?\w+\)` anchored at the head of the list,
returning the matched text. -/
def areaParenAt : List Char → Option String
  | '(' :: rest =>
      let d1 := rest.takeWhile Char.isDigit
      if d1.isEmpty then none
      else
        match rest.dropWhile Char.isDigit with
        | '.' :: rest2 =>
            let d2 := rest2.takeWhile Char.isDigit
            if d2.isEmpty then none
            else
              match rest2.dropWhile Char.isDigit with
              | ' ' :: rest3 =>
                  let w := rest3.takeWhile pyIsWordChar
                  if w.isEmpty then none
                  else
                    match rest3.dropWhile pyIsWordChar with
                    | ')' :: _ =>
                        some (String.mk ('(' :: d1 ++ '.' :: d2 ++ ' ' :: w ++ [')']))
                    | _ => none
              | rest3 =>
                  let w := rest3.takeWhile pyIsWordChar
                  if w.isEmpty then none
                  else
                    match rest3.dropWhile pyIsWordChar with
                    | ')' :: _ =>
                        some (String.mk ('(' :: d1 ++ '.' :: d2 ++ w ++ [')']))
                    | _ => none
        | _ => none
  | _ => none

/-- `re.search(r"\(\d+\.\d+ ?\w+\)", s)`, returning group 0. -/
def searchAreaParen : List Char → Option String
  | [] => none
  | c :: cs =>
      match areaParenAt (c :: cs) with
      | some m => some m
      | none => searchAreaParen cs

/-- `re.search(r"\d+,?\d*", s)`, returning group 0. -/
def searchNumComma : List Char → Option String
  | [] => none
  | c :: cs =>
      if c.isDigit then
        some (String.mk
          (match (c :: cs).dropWhile Char.isDigit with
           | ',' :: rest =>
               (c :: cs).takeWhile Char.isDigit ++ ',' :: rest.takeWhile Char.isDigit
           | _ => (c :: cs).takeWhile Char.isDigit))
      else searchNumComma cs

/-- `pre` dropped from the head of `l`, or `none`. -/
def dropPre : List Char → List Char → Option (List Char)
  | [], l => some l
  | _ :: _, [] => none
  | p :: ps, c :: cs => if p == c then dropPre ps cs else none

/-- The pattern `PREFIX(кв.м) -\s` as a lookbehind followed by `\d+`,
anchored at the head: returns the group text (the four characters at the
`кв.м` position — note the unescaped parentheses in the source make this
a capture group, so `re.findall` returns THIS text, not the digits) and
the rest after the digit run. -/
def matchKvmAt (pre : List Char) (l : List Char) : Option (String × List Char) :=
  match dropPre pre l with
  | none => none
  | some r1 =>
      match r1 with
      | k :: v :: x :: m :: ' ' :: '-' :: w :: rest =>
          if k == 'к' && v == 'в' && m == 'м' && pyIsSpace w then
            if (rest.takeWhile Char.isDigit).isEmpty then none
            else some (String.mk [k, v, x, m], rest.dropWhile Char.isDigit)
          else none
      | _ => none

/-- `re.findall('(?<=PREFIX(кв.м) -\\s)\\d+', s)` — which, because of the
capture group inside the lookbehind, yields the `кв.м`-position text of
each match (fueled). -/
def scanKvmF (pre : List Char) : Nat → List Char → List String
  | 0, _ => []
  | _ + 1, [] => []
  | fuel + 1, c :: cs =>
      match matchKvmAt pre (c :: cs) with
      | some (grp, rest) => grp :: scanKvmF pre fuel rest
      | none => scanKvmF pre fuel cs

/-- `re.findall` of the `кв.м` pattern over a string. -/
def scanKvm (pre : String) (s : String) : List String :=
  scanKvmF pre.toList s.toList.length s.toList

/-! ### Subzone records (`_get_subzones_from_table`,
`_extract_data_by_subzones`) -/

/-- A heterogeneous Python value as stored in the per-subzone area
dictionaries: an int, a string, or a list of strings. -/
inductive PyVal where
  | int (n : Int)
  | str (s : String)
  | list (l : List String)
deriving DecidableEq, Repr

/-- Python binary `-` on such values: only int − int is defined; the
string cases raise `TypeError` (the "likely-buggy" subtraction the spec
flags in its design notes). -/
def pyValSub : PyVal → PyVal → Except PyErr PyVal
  | .int a, .int b => .ok (.int (a - b))
  | _, _ => .error .typeError

/-- `dict.fromkeys(("total","living","nonliving","livingspace","builtin"), 0)`. -/
structure AreaByFloor where
  total : PyVal
  living : PyVal
  nonliving : PyVal
  livingspace : PyVal
  builtin : PyVal
deriving DecidableEq, Repr

/-- The same keys plus `"underground"`. -/
structure AreaTotal where
  total : PyVal
  living : PyVal
  nonliving : PyVal
  livingspace : PyVal
  builtin : PyVal
  underground : PyVal
deriving DecidableEq, Repr

def areaByFloorInit : AreaByFloor := ⟨.int 0, .int 0, .int 0, .int 0, .int 0⟩

def areaTotalInit : AreaTotal := ⟨.int 0, .int 0, .int 0, .int 0, .int 0, .int 0⟩

/-- One structured subzone record (the dict built at src/parser.py:477-486). -/
structure SubzoneData where
  area : String
  description : String
  max_height : String
  max_floors : String
  max_dev_percent : String
  max_density : String
  area_by_floor : AreaByFloor
  area_total : AreaTotal
deriving DecidableEq, Repr

/-- The body of the `for sentence in sentences` loop
(src/parser.py:450-475), threading the two area dictionaries. -/
def processSentence (st : AreaByFloor × AreaTotal) (sentence : String) :
    Except PyErr (AreaByFloor × AreaTotal) := do
  let abf := st.1
  let at_ := st.2
  let abf := if pyStarts sentence "Суммарная поэтажная площадь объекта" then
      match searchNumComma sentence.toList with
      | some m => { abf with total := .str m }
      | none => abf
    else abf
  let at_ := if pyContains sentence "Наземная площадь" || pyContains sentence "Общая площадь" then
      match searchNumComma sentence.toList with
      | some m => { at_ with total := .str m }
      | none => at_
    else at_
  let abf := { abf with living := at_.total }
  let abf ←
    match scanKvm "нежилая часть " sentence with
    | nl0 :: _ =>
        let abf := { abf with nonliving := .str nl0 }
        if nl0 == "" then pure abf
        else do
          let v ← pyValSub at_.total at_.nonliving
          pure { abf with living := v }
    | [] => pure abf
  let abf :=
    match scanKvm "- жилая часть " sentence with
    | [] => { abf with livingspace := .int 0 }
    | ls => { abf with livingspace := .list ls }
  pure (abf, at_)

/-- A subzone group: its rows (all columns except the appended
`subzone_index`) and whether the group carries a subzone index
(`subzone["subzone_index"].any()`). -/
structure SubTable where
  rows : List (List (Option String))
  hasIdx : Bool
deriving DecidableEq, Repr

/-- A subzone title row: its first cell contains `"No"` and all other
cells are falsy (src/parser.py:362-366).  Rows here always have at least
one cell (the header-signature check passed). -/
def isTitleRow (r : List (Option String)) : Bool :=
  match r with
  | [] => false
  | c :: rest => pyContains (cellStr c) "No" && !(rest.any cellTruthy)

/-- Title rows get indices 1, 2, …; other rows inherit the previous value
(the `fillna(method="ffill")` of src/parser.py:367). -/
def assignSubzoneIdx : List (List (Option String)) → Nat → Option Nat → List (Option Nat)
  | [], _, _ => []
  | r :: rest, next, cur =>
      if isTitleRow r then some next :: assignSubzoneIdx rest (next + 1) (some next)
      else cur :: assignSubzoneIdx rest next cur

/-- Grouping by the assigned index (`table.groupby("subzone_index")`):
rows with no index (before the first title row) are dropped; groups come
in ascending index order, which is encounter order (fueled). -/
def groupRunsF : Nat → List (List (Option String) × Option Nat) → List SubTable
  | 0, _ => []
  | _ + 1, [] => []
  | fuel + 1, (_, none) :: rest => groupRunsF fuel rest
  | fuel + 1, (r, some k) :: rest =>
      ⟨r :: (rest.takeWhile (fun p => p.2 == some k)).map (fun p => p.1), true⟩ ::
        groupRunsF fuel (rest.dropWhile (fun p => p.2 == some k))

/-- Translation of `Parser._get_subzones_from_table` (src/parser.py:358-374). -/
def get_subzones_from_table (rows : List (List (Option String))) : List SubTable :=
  let idxs := assignSubzoneIdx rows 1 none
  if idxs.any (fun o => o.isSome) then groupRunsF rows.length (rows.zip idxs)
  else [⟨rows, false⟩]

/-- Index of the unique column labelled `lbl`: `KeyError` when absent;
a duplicated label yields a DataFrame whose `.str` access fails
(`attributeError`). -/
def findColIdx (header : List (Option String)) (lbl : String) : Except PyErr Nat :=
  match (List.range header.length).filter
      (fun j => (header.get? j).getD none == some lbl) with
  | [j] => .ok j
  | [] => .error .keyError
  | _ => .error .attributeError

/-- The cells of column `j`. -/
def colCells (rows : List (List (Option String))) (j : Nat) : List (Option String) :=
  rows.map (fun r => (r.get? j).getD none)

/-- `Series.str.cat(sep=...)`: concatenation of the non-null values.
(The columns in play are object-typed — their pre-slice cells include the
string marker row — so `.str` itself does not fail here.) -/
def colStrCat (cells : List (Option String)) (sep : String) : String :=
  pyJoin sep (cells.filterMap id)

/-- Python dict insertion order: overwriting keeps the original position,
a new key goes to the end. -/
def dictInsert (l : List (Option String × SubzoneData)) (k : Option String)
    (v : SubzoneData) : List (Option String × SubzoneData) :=
  if l.any (fun p => p.1 == k) then
    l.map (fun p => if p.1 == k then (k, v) else p)
  else l ++ [(k, v)]

/-- The body of the `for subzone in subzones` loop of
`Parser._extract_data_by_subzones` (src/parser.py:379-486) for one
subzone group. -/
def extract_one_subzone (header : List (Option String)) (sub : SubTable) :
    Except PyErr (Option String × SubzoneData) := do
  let title? : Option String ←
    if sub.hasIdx then
      match sub.rows with
      | [] => .error .indexError
      | r :: _ =>
          match r with
          | [] => .error .indexError
          | c :: _ => pure (some (cellStr c))
    else pure none
  let (s_number, s_area, s_description) ←
    match title? with
    | some title =>
        if title == "" then pure ((some "-1" : Option String), "-", "-")
        else do
          let s_number := searchNoNumber title.toList
          let s_area := match searchAreaParen title.toList with
            | some m => m
            | none => "-"
          if pyContains title "Назначение объекта" then
            match pySplit1 title " - " with
            | [_, b] => pure (s_number, s_area, pyStrip b)
            | _ => .error .valueError
          else pure (s_number, s_area, "-")
    | none => pure ((some "-1" : Option String), "-", "-")
  let j5 ← findColIdx header "5"
  let col5 := colStrCat (colCells sub.rows j5) ""
  let ms := (findDigitRuns col5.toList).map String.mk
  let (s_max_height, s_max_floors) ←
    if ms.length == 2 then
      pure (ms.getD 0 "", ms.getD 1 "")
    else if ms.length == 1 && pyContains col5 "Предельная высота" then
      pure (ms.getD 0 "", "-")
    else if ms.length == 1 && pyContains col5 "Предельное количество этажей" then
      pure ("-", ms.getD 0 "")
    else if pyContains col5 "Предельная высота" &&
        pyContains col5 "Предельное количество этажей" then
      match pySplit1 col5 "Предельное" with
      | [hp, fp] =>
          match pyRsplit1 hp " - ", pyRsplit1 fp " - " with
          | [_, h2], [_, f2] => pure (pyStrip h2, pyStrip f2)
          | _, _ => .error .valueError
      | _ => .error .valueError
    else pure ("-", "-")
  let j6 ← findColIdx header "6"
  let col6 := colStrCat (colCells sub.rows j6) ""
  let s_max_dev_percent ←
    match pyRsplit1 col6 " - " with
    | [_, b] => pure (pyStrip b)
    | _ => .error .indexError
  let dIdx : Nat := if s_number == some "-1" then 0 else 1
  let densityCell ←
    match sub.rows.get? dIdx with
    | none => .error .indexError
    | some r =>
        match r.getLast? with
        | none => .error .indexError
        | some c => pure (cellStr c)
  let s_max_density :=
    match pyRsplit1 densityCell " - " with
    | [_, b] => b
    | _ => "-"
  let j8 ← findColIdx header "8"
  let col8 := colStrCat (colCells sub.rows j8) " "
  let (abf, at_) ← (scanSentences col8).foldlM processSentence
    (areaByFloorInit, areaTotalInit)
  pure (s_number, ⟨s_area, s_description, s_max_height, s_max_floors,
    s_max_dev_percent, s_max_density, abf, at_⟩)

/-- Translation of `Parser._extract_data_by_subzones` (src/parser.py:376-488). -/
def extract_data_by_subzones (header : List (Option String)) (subs : List SubTable) :
    Except PyErr (List (Option String × SubzoneData)) :=
  subs.foldlM (fun acc sub => do
    let (k, v) ← extract_one_subzone header sub
    pure (dictInsert acc k v)) []

/-! ### `_extract_from_limits_table` -/

/-- Result of the marker-row scan of `_extract_from_limits_table`
(src/parser.py:293-299): `proceed i` — the loop stopped at index `i`
(marker found) or fell through with the loop variable left at the last
index; `wrongTable` — a row starting with `"1"` whose last cell does not
end with `"8"`; `noRows` — the loop never ran, so the later use of `i`
raises `NameError`. -/
inductive MarkerScan where
  | proceed (i : Nat)
  | wrongTable
  | noRows
  | err (e : PyErr)
deriving DecidableEq, Repr

/-- The row scan itself: `idx` is the current row index. -/
def limitsMarkerScanGo : List (List (Option String)) → Nat → MarkerScan
  | [], idx => .proceed (idx - 1)
  | r :: rest, idx =>
      match r with
      | [] => .err .indexError
      | c :: _ =>
          if pyStarts (cellStr c) "1" && pyEnds (cellStr (r.getLast?.getD none)) "8" then
            .proceed idx
          else if pyStarts (cellStr c) "1" &&
              !pyEnds (cellStr (r.getLast?.getD none)) "8" then
            .wrongTable
          else limitsMarkerScanGo rest (idx + 1)

/-- Marker scan over all rows; an empty row list leaves the loop index
unbound. -/
def limitsMarkerScan (rows : List (List (Option String))) : MarkerScan :=
  match rows with
  | [] => .noRows
  | _ => limitsMarkerScanGo rows 0

/-- `.str.replace(" ", "_")` on a row extracted by `iloc`: an all-NaN row
is float-typed, so `.str` raises `AttributeError`. -/
def strReplaceCells (r : List (Option String)) : Except PyErr (List (Option String)) :=
  if r.all (fun c => c.isNone) then .error .attributeError
  else .ok (r.map (fun c => c.map (fun s => pyReplace s " " "_")))

/-- The recognized first-column signatures (src/parser.py:306). -/
def headerSigOk (h0 : Option String) : Bool :=
  h0 == some "1_2_3" || h0 == some "1_2_3_4"

/-- Translation of `Parser._extract_from_limits_table`
(src/parser.py:283-315).  `.ok l` is the subzone mapping assigned to
`self._data["subzones"]`; `.error` a propagated exception. -/
def extract_from_limits_table (tables : List RawTable) :
    Except PyErr (List (Option String × SubzoneData)) :=
  if tables.length == 0 then .ok []
  else
    match selectCaptionTable tables "Предельные (минимальные" with
    | .error e => .error e
    | .ok t0 =>
        let t := dropAllNaCols t0
        match limitsMarkerScan t.rows with
        | .wrongTable => .ok []
        | .noRows => .error .nameError
        | .err e => .error e
        | .proceed i =>
            match t.rows.get? i with
            | none => .error .indexError
            | some rowi =>
                match strReplaceCells rowi with
                | .error e => .error e
                | .ok newCols =>
                    if headerSigOk (newCols.head?.getD none) then
                      extract_data_by_subzones newCols
                        (get_subzones_from_table (t.rows.drop (i + 3)))
                    else .ok []

/-! ### Case mapping and misc string helpers -/

/-- Python `str.lower()` on the alphabets in play (ASCII and Cyrillic,
including Ё). -/
def pyLowerChar (c : Char) : Char :=
  if 'A' ≤ c && c ≤ 'Z' then Char.ofNat (c.toNat + 32)
  else if 0x410 ≤ c.toNat && c.toNat ≤ 0x42F then Char.ofNat (c.toNat + 0x20)
  else if c.toNat == 0x401 then Char.ofNat 0x451
  else c

/-- Python `str.upper()` on one character (same alphabets). -/
def pyUpperChar (c : Char) : Char :=
  if 'a' ≤ c && c ≤ 'z' then Char.ofNat (c.toNat - 32)
  else if 0x430 ≤ c.toNat && c.toNat ≤ 0x44F then Char.ofNat (c.toNat - 0x20)
  else if c.toNat == 0x451 then Char.ofNat 0x401
  else c

/-- Python `s.lower()`. -/
def pyLower (s : String) : String := String.mk (s.toList.map pyLowerChar)

/-- Python `s.capitalize()`: first character upper, the rest lower. -/
def pyCapitalize (s : String) : String :=
  match s.toList with
  | [] => ""
  | c :: cs => String.mk (pyUpperChar c :: cs.map pyLowerChar)

/-- First index of `needle` in `hay`, if any. -/
def listFindSub (needle : List Char) : List Char → Option Nat
  | [] => if needle.isEmpty then some 0 else none
  | c :: tl =>
      if listStarts needle (c :: tl) then some 0
      else (listFindSub needle tl).map (fun n => n + 1)

/-- Python `s.find(sub)`: index of the first occurrence or `-1`. -/
def pyFind (s sub : String) : Int :=
  match listFindSub sub.toList s.toList with
  | some n => (n : Int)
  | none => -1

/-- Python index normalization for slices: negative counts from the end,
out-of-range clamps. -/
def pyIdx (len : Nat) (i : Int) : Nat :=
  if i < 0 then len - (-i).toNat else min i.toNat len

/-- Python `s[i:]`. -/
def pySliceFrom (s : String) (i : Int) : String :=
  String.mk (s.toList.drop (pyIdx s.toList.length i))

/-- Python `s[:i]`. -/
def pySliceTo (s : String) (i : Int) : String :=
  String.mk (s.toList.take (pyIdx s.toList.length i))

/-- Python `s[a:b]` for non-negative bounds (`str(code)[2:5]`). -/
def pySliceStr (s : String) (a b : Nat) : String :=
  String.mk ((s.toList.drop a).take (b - a))

/-- Decimal digits of a number (fueled; enough fuel for any value in play). -/
def natDigits : Nat → Nat → List Char
  | 0, _ => []
  | fuel + 1, n =>
      if n < 10 then [Char.ofNat ('0'.toNat + n)]
      else natDigits fuel (n / 10) ++ [Char.ofNat ('0'.toNat + n % 10)]

/-- `str(n)` for a natural number. -/
def natToStr (n : Nat) : String := String.mk (natDigits 30 n)

/-- `str(n)` for an integer. -/
def intToStr (n : Int) : String :=
  if n < 0 then "-" ++ natToStr (-n).toNat else natToStr n.toNat

/-- Zero-padded to two digits (`%d`/`%m`). -/
def pad2 (n : Nat) : String := if n < 10 then "0" ++ natToStr n else natToStr n

/-- Zero-padded to four digits (`%Y` for the years in play). -/
def pad4 (n : Nat) : String :=
  if n < 10 then "000" ++ natToStr n
  else if n < 100 then "00" ++ natToStr n
  else if n < 1000 then "0" ++ natToStr n
  else natToStr n

/-- Python `int(s)`: optional surrounding whitespace and sign, then a
non-empty digit run (no underscores occur in the data). -/
def pyIntOfString (s : String) : Option Int :=
  let t := (pyStrip s).toList
  match t with
  | '-' :: ds =>
      if ds ≠ [] && ds.all Char.isDigit then some (-(digitsToNat ds : Int)) else none
  | '+' :: ds =>
      if ds ≠ [] && ds.all Char.isDigit then some ((digitsToNat ds : Int)) else none
  | ds => if ds ≠ [] && ds.all Char.isDigit then some ((digitsToNat ds : Int)) else none

/-! ### External services (morphology, floats, districts)

The spec directs that the language-normalization service (pymorphy2) and
the static district reference table be modelled as injected read-only
capabilities.  IEEE-double arithmetic (used for a few aggregate values)
is likewise kept abstract: the claims about the pipeline do not depend on
particular float values, only on the operations being functions. -/

/-- The pymorphy2 capability used by `_change_form_to_normal` and
friends: part of speech, dictionary form, grammatical number and gender
of a word, and re-inflection of a word to a number/gender pair (`none`
models any exception, which the source catches). -/
structure MorphService where
  pos : String → Option String
  normal : String → String
  number : String → Option String
  gender : String → Option String
  inflect : String → Option String → Option String → Option String

/-- The IEEE-double operations the postprocessor uses, kept abstract. -/
structure FloatOps where
  F : Type
  ofString : String → Option F
  mul10000 : F → F
  sum : List F → F
  round2 : F → F

/-- One row of `data/districts.csv` (`Name`, `Kod_okato` as its string
form). -/
structure DistrictRow where
  name : String
  kod_okato : String

/-- `Parser._create_distict_dict` (src/parser.py:115-118): rows whose
name contains "административный округ", keyed by `str(okato)[2:5]`. -/
def create_distict_dict (rows : List DistrictRow) : List (String × String) :=
  (rows.filter (fun r => pyContains r.name "административный округ")).map
    (fun r => (pySliceStr r.kod_okato 2 5, r.name))

/-- Python `dict` lookup over an association list built by `zip`: later
entries overwrite earlier ones. -/
def pyDictGet (l : List (String × String)) (k : String) : Option String :=
  (l.reverse.find? (fun p => p.1 == k)).map (fun p => p.2)

/-- A trivial morphology service (used to instantiate universally
quantified theorems at concrete inputs). -/
def trivMorph : MorphService :=
  ⟨fun _ => none, fun w => w, fun _ => none, fun _ => none, fun _ _ _ => none⟩

/-- Trivial float operations over `Unit` (same purpose). -/
def trivFloat : FloatOps :=
  ⟨Unit, fun _ => some (), fun _ => (), fun _ => (), fun _ => ()⟩

/-! ### `_extract_date`, `_get_status`, `_format_date` -/

/-- The pattern `\d{2}\.\d{2}.\d{4}` anchored at the head (note the
unescaped third separator: any character). -/
def dateLikeAt : List Char → Option (Nat × Nat × Char × Nat)
  | d1 :: d2 :: '.' :: m1 :: m2 :: sep :: y1 :: y2 :: y3 :: y4 :: _ =>
      if d1.isDigit && d2.isDigit && m1.isDigit && m2.isDigit &&
          y1.isDigit && y2.isDigit && y3.isDigit && y4.isDigit then
        some (digitsToNat [d1, d2], digitsToNat [m1, m2], sep,
          digitsToNat [y1, y2, y3, y4])
      else none
  | _ => none

/-- `re.search(r"\d{2}\.\d{2}.\d{4}", s)`, decomposed into day, month,
the third separator character, and year. -/
def searchDateLike : List Char → Option (Nat × Nat × Char × Nat)
  | [] => none
  | c :: cs =>
      match dateLikeAt (c :: cs) with
      | some r => some r
      | none => searchDateLike cs

/-- Translation of `Parser._extract_date` (src/parser.py:1015-1041).
`strptime("%d.%m.%Y")` requires the third separator to be a literal dot
and the date to be valid, else `ValueError`. -/
def extract_date (text : List (Nat × String)) : Except PyErr (Option Date) :=
  match (textValues text).find? (fun page =>
      pyContains page "Дата выдачи " &&
        pyContains page "Градостроительный план подготовлен") with
  | none => .ok none
  | some page =>
      match (pySplit page "\n").find? (fun line => pyStarts line "Дата выдачи") with
      | none => .ok none
      | some date_str =>
          match searchDateLike date_str.toList with
          | none => .ok none
          | some (d, m, sep, y) =>
              if sep == '.' then
                match mkDate y m d with
                | .error e => .error e
                | .ok dt => .ok (some dt)
              else .error .valueError

/-- Translation of `Parser._get_status` (src/parser.py:1056-1071). -/
def get_status (text : List (Nat × String)) (end_date : Option Date)
    (today : Date) : Option String :=
  if text.length == 1 &&
      (textValues text).any (fun page => pyContains page "Первом отделе") then
    some "Секретно"
  else
    match end_date with
    | none => none
    | some ed => if dateLe today ed then some "Действует" else some "Срок действия истек"

/-- Translation of `Parser._format_date` (src/parser.py:610-614):
`strftime("%d.%m.%Y")` for a date, `None` for anything else. -/
def format_date (d : Option Date) : Option String :=
  d.map (fun dt => pad2 dt.day ++ "." ++ pad2 dt.month ++ "." ++ pad4 dt.year)

/-! ### Rightsholder normalization (`_find_noun`,
`_change_form_to_normal`, `_postprocess_rightsholder`,
`_detect_rightsholder_type`) -/

/-- Translation of `Parser._find_noun` (src/parser.py:616-621). -/
def find_noun (sv : MorphService) (words : String) : Option (List String) :=
  let nouns := (pySplitWs words).filter (fun w => sv.pos w == some "NOUN")
  if nouns.isEmpty then none else some nouns

/-- The inner word loop of `_change_form_to_normal` (src/parser.py:634-656)
over one even (outside-quotes) segment.  Returns the strings appended to
`parsed_words` for this segment: normally one joined string (plus a
trailing space), or — on the multi-noun `break` — the raw segment followed
by the partial join. -/
def cftnGo (sv : MorphService) (allWords : List String) (word_seq : String) :
    List String → List String → List String
  | [], acc => [pyJoin " " acc.reverse ++ " "]
  | word :: rest, acc =>
      match find_noun sv word_seq with
      | some l =>
          if l.length > 1 then [word_seq, pyJoin " " acc.reverse ++ " "]
          else
            let noun1 := l.getD 0 ""
            let appended :=
              if sv.pos word == some "ADJF" then
                match sv.inflect (sv.normal word) (sv.number noun1) (sv.gender noun1) with
                | some w => w
                | none => sv.normal word
              else sv.normal word
            cftnGo sv allWords word_seq rest (appended :: acc)
      | none =>
          let acc2 := (allWords.map sv.normal).reverse ++ acc
          let appended :=
            if sv.pos word == some "ADJF" then
              match sv.inflect (sv.normal word) none none with
              | some w => w
              | none => sv.normal word
            else sv.normal word
          cftnGo sv allWords word_seq rest (appended :: acc2)

/-- The segment loop of `_change_form_to_normal`: odd (inside-quotes)
segments pass through, even segments go through the word loop. -/
def cftnSegs (sv : MorphService) (allWords : List String) :
    List String → Nat → List String
  | [], _ => []
  | seg :: rest, i =>
      if i % 2 == 1 then seg :: cftnSegs sv allWords rest (i + 1)
      else cftnGo sv allWords seg (pySplitWs seg) [] ++ cftnSegs sv allWords rest (i + 1)

/-- Translation of `Parser._change_form_to_normal` (src/parser.py:623-658). -/
def change_form_to_normal (sv : MorphService) (text : String) : String :=
  let words := pySplit text "\""
  pyJoin "\"" (cftnSegs sv words words 0)

/-- The pattern `от \d{2}\.\d{2}.\d{4}` anchored at the head: returns the
rest after the match. -/
def otDateAt : List Char → Option (List Char)
  | 'о' :: 'т' :: ' ' :: d1 :: d2 :: '.' :: m1 :: m2 :: _ :: y1 :: y2 :: y3 :: y4 :: rest =>
      if d1.isDigit && d2.isDigit && m1.isDigit && m2.isDigit &&
          y1.isDigit && y2.isDigit && y3.isDigit && y4.isDigit then
        some rest
      else none
  | _ => none

/-- `re.sub(r"от \d{2}\.\d{2}.\d{4}", "", s)` (fueled). -/
def subOtDateF : Nat → List Char → List Char
  | 0, l => l
  | _ + 1, [] => []
  | fuel + 1, c :: cs =>
      match otDateAt (c :: cs) with
      | some rest => subOtDateF fuel rest
      | none => c :: subOtDateF fuel cs

/-- `re.sub(r"от \d{2}\.\d{2}.\d{4}", "", s)`. -/
def subOtDate (s : String) : String :=
  String.mk (subOtDateF s.toList.length s.toList)

/-- Translation of `Parser._postprocess_rightsholder` (src/parser.py:660-668). -/
def postprocess_rightsholder (sv : MorphService) (typ : Option String)
    (rightsholder : Option String) : Option String :=
  match rightsholder with
  | none => none
  | some rh =>
      let rh := if typ == some "RU" then pyReplace rh "обращения " "" else rh
      let rh := pyStrip (subOtDate rh)
      some (change_form_to_normal sv rh)

/-- Translation of `Parser._detect_rightsholder_type` (src/parser.py:670-694). -/
def detect_rightsholder_type (rightsholder : Option String) : Option String :=
  match rightsholder with
  | none => none
  | some rh =>
      if rh == "" then none
      else if ["обществ", "товариществ", "акционер", "партнерст", "предприят",
          "некоммерческ", "департамент", "управление", "отдел"].any
          (fun o => pyContains (pyLower rh) o) then
        some "ЮЛ"
      else if pyContains (pyLower rh) "индивидуальн" then some "ФЛ или ИП"
      else if pyContains rh "\"" then some "ЮЛ"
      else
        let parts := pySplit rh " "
        if parts.length < 4 then
          if (parts.take 2).all (fun part => !(pyLower part == part)) then
            some "ФЛ или ИП"
          else some "ЮЛ"
        else some "ЮЛ"

/-! ### `_postprocess_cad_number` and `_postprocess_ppt_pmt` -/

/-- Translation of `Parser._postprocess_cad_number` (src/parser.py:696-700)
(`""` is falsy, hence also `None`). -/
def postprocess_cad_number (cad_number : Option String) : Option String :=
  match cad_number with
  | none => none
  | some s => if s == "" then none else some (pyStrip s)

/-- The `{status, details}` record for ППТ/ПМТ. -/
structure PptStatus where
  status : Option String
  details : String

/-- A character of the class `[-а-яА-Я]` (no Ё, as in the source class). -/
def isRefClassChar (c : Char) : Bool :=
  c == '-' || (0x430 ≤ c.toNat && c.toNat ≤ 0x44F) ||
    (0x410 ≤ c.toNat && c.toNat ≤ 0x42F)

/-- `\d{2}\.\d{2}.\d{4}` at the head, returning the ten matched
characters and the rest. -/
def dateLikeChars : List Char → Option (List Char × List Char)
  | d1 :: d2 :: '.' :: m1 :: m2 :: sep :: y1 :: y2 :: y3 :: y4 :: rest =>
      if d1.isDigit && d2.isDigit && m1.isDigit && m2.isDigit &&
          y1.isDigit && y2.isDigit && y3.isDigit && y4.isDigit then
        some ([d1, d2, '.', m1, m2, sep, y1, y2, y3, y4], rest)
      else none
  | _ => none

/-- Backtracking over the `[-а-яА-Я]*` run of the document-reference
patterns: try the longest class-run prefix first (greedy), then shorter,
until the rest of the pattern matches.  `strict = true` is the ПМТ
variant (a literal `" от "`), `strict = false` the ППТ variant
(`" *от *"`). -/
def refTailAt (strict : Bool) (run : List Char) (k : Nat) (afterRun : List Char) :
    Option (List Char × List Char) :=
  -- `k` is the candidate length of the class run actually consumed; the
  -- unconsumed part of `run` is text the pattern must re-match.
  let consumed := run.take k
  let tail := run.drop k ++ afterRun
  let tryHere : Option (List Char × List Char) :=
    if strict then
      match tail with
      | ' ' :: 'о' :: 'т' :: ' ' :: rest =>
          match dateLikeChars rest with
          | some (ds, rest2) =>
              some (consumed ++ ' ' :: 'о' :: 'т' :: ' ' :: ds, rest2)
          | none => none
      | _ => none
    else
      let sp1 := tail.takeWhile (fun c => c == ' ')
      match tail.dropWhile (fun c => c == ' ') with
      | 'о' :: 'т' :: rest =>
          let sp2 := rest.takeWhile (fun c => c == ' ')
          match dateLikeChars (rest.dropWhile (fun c => c == ' ')) with
          | some (ds, rest2) =>
              some (consumed ++ sp1 ++ 'о' :: 'т' :: sp2 ++ ds, rest2)
          | none => none
      | _ => none
  match tryHere with
  | some r => some r
  | none => match k with
      | 0 => none
      | k2 + 1 => refTailAt strict run k2 afterRun

/-- The document-reference pattern
`№ ?\d+[-а-яА-Я]*( *от *| от )\d{2}\.\d{2}.\d{4}` anchored at the head:
the matched text and the rest. -/
def refAt (strict : Bool) : List Char → Option (String × List Char)
  | '№' :: t0 =>
      let (sp, t1) :=
        match t0 with
        | ' ' :: r => if (r.takeWhile Char.isDigit).isEmpty then ([], t0) else ([' '], r)
        | _ => ([], t0)
      let ds := t1.takeWhile Char.isDigit
      if ds.isEmpty then none
      else
        let t2 := t1.dropWhile Char.isDigit
        let run := t2.takeWhile isRefClassChar
        match refTailAt strict run run.length (t2.dropWhile isRefClassChar) with
        | some (body, rest) => some (String.mk ('№' :: sp ++ ds ++ body), rest)
        | none => none
  | _ => none

/-- `re.findall` of the document-reference pattern (fueled). -/
def scanRefsF (strict : Bool) : Nat → List Char → List String
  | 0, _ => []
  | _ + 1, [] => []
  | fuel + 1, c :: cs =>
      match refAt strict (c :: cs) with
      | some (m, rest) => m :: scanRefsF strict fuel rest
      | none => scanRefsF strict fuel cs

/-- `re.findall` of the document-reference pattern over a string. -/
def scanRefs (strict : Bool) (s : String) : List String :=
  scanRefsF strict s.toList.length s.toList

/-- One branch of `_postprocess_ppt_pmt`: status and reference details of
one description half. -/
def pptHalf (strict : Bool) (desc : String) : PptStatus :=
  if pyContains desc "не утвержд" then ⟨some "Не утвержден", "-"⟩
  else
    let ms := scanRefs strict desc
    ⟨some "Утвержден", if ms.isEmpty then "-" else pyJoin "; " ms⟩

/-- Translation of `Parser._postprocess_ppt_pmt` (src/parser.py:702-735).
`find` yields `-1` on a missing label, and the Python slices then use the
negative index. -/
def postprocess_ppt_pmt (ppt_pmt : Option String) : PptStatus × PptStatus :=
  match ppt_pmt with
  | none => (⟨none, "-"⟩, ⟨none, "-"⟩)
  | some s =>
      let pptStart := pyFind s "планировк"
      let pmtStart := pyFind s "межеван"
      let (ppt_desc, pmt_desc) :=
        if pptStart < pmtStart then (pySliceTo s pmtStart, pySliceFrom s pmtStart)
        else (pySliceFrom s pptStart, pySliceTo s pptStart)
      (pptHalf false ppt_desc, pptHalf true pmt_desc)

/-! ### `_postprocess_location` and the district lookup -/

/-- A character of the class `[а-яА-Я]` (no Ё). -/
def isCyrLetter (c : Char) : Bool :=
  (0x430 ≤ c.toNat && c.toNat ≤ 0x44F) || (0x410 ≤ c.toNat && c.toNat ≤ 0x42F)

/-- The lookbehind pattern `(?<=LABEL\s)CLS+` anchored at the head:
captured run and rest. -/
def labelScanAt (label : List Char) (cls : Char → Bool) (l : List Char) :
    Option (List Char × List Char) :=
  match dropPre label l with
  | none => none
  | some r1 =>
      match r1 with
      | w :: rest =>
          if pyIsSpace w then
            let run := rest.takeWhile cls
            if run.isEmpty then none else some (run, rest.dropWhile cls)
          else none
      | [] => none

/-- `re.findall('(?<=LABEL\\s)CLS+', s)` (fueled). -/
def labelScanF (label : List Char) (cls : Char → Bool) : Nat → List Char → List String
  | 0, _ => []
  | _ + 1, [] => []
  | fuel + 1, c :: cs =>
      match labelScanAt label cls (c :: cs) with
      | some (run, rest) => String.mk run :: labelScanF label cls fuel rest
      | none => labelScanF label cls fuel cs

/-- `re.findall('(?<=LABEL\\s)CLS+', s)`. -/
def labelScan (label : String) (cls : Char → Bool) (s : String) : List String :=
  labelScanF label.toList cls s.toList.length s.toList

/-- Translation of `Parser._get_settlement` (src/parser.py:744-749). -/
def get_settlement (text : String) : List String :=
  let res := labelScan "поселение" isCyrLetter text
  if !res.isEmpty then res
  else labelScan "муниципальное образование" isCyrLetter text

/-- A character of the class `[0-9а-яА-Я.,\s]`. -/
def isAddrChar (c : Char) : Bool :=
  c.isDigit || isCyrLetter c || c == '.' || c == ',' || pyIsSpace c

/-- Translation of `Parser._get_address` (src/parser.py:737-742). -/
def get_address (text settlement : String) : List String :=
  let res := labelScan "Почтовый адрес ориентира:" isAddrChar text
  if !res.isEmpty then res
  else labelScan (settlement ++ ",") isAddrChar text

/-- Translation of `Parser._get_adm_district` (src/parser.py:751-755):
`IndexError` when no reference row matches, `KeyError` when the okato
code prefix is not in the district dict. -/
def get_adm_district (sv : MorphService) (districtData : List DistrictRow)
    (districts : List (String × String)) (settlement : String) :
    Except PyErr String :=
  let settlement := pyCapitalize (sv.normal settlement)
  match (districtData.filter (fun r => pyContains r.name settlement)).head? with
  | none => .error .indexError
  | some row =>
      match pyDictGet districts (pySliceStr row.kod_okato 2 5) with
      | none => .error .keyError
      | some name => .ok name

/-- Translation of `Parser._postprocess_location` (src/parser.py:757-769):
the three-step chain (settlement, address, district) with any failure
collapsing all three outputs to `None`. -/
def postprocess_location (sv : MorphService) (districtData : List DistrictRow)
    (districts : List (String × String)) (location : Option String) :
    Option String × Option String × Option String :=
  match location with
  | none => (none, none, none)
  | some loc =>
      let r : Option (String × String × String) := do
        let settlement ← (get_settlement loc).head?
        let address ← (get_address loc settlement).head?
        let district ← (get_adm_district sv districtData districts settlement).toOption
        pure (district, settlement, address)
      match r with
      | some (d, s, a) => (some d, some s, some a)
      | none => (none, none, none)

/-! ### Report values -/

/-- A value of the final nested report (`F` is the abstract IEEE-double
carrier). -/
inductive RVal (F : Type) where
  | none
  | str (s : String)
  | int (n : Int)
  | flt (x : F)
  | listV (l : List (RVal F))
  | dictV (l : List (String × RVal F))

/-- The final `ParsedReport`: section title → labelled fields. -/
def Report (F : Type) := List (String × List (String × RVal F))

/-- `None`-or-string to a report value. -/
def optStr {F : Type} : Option String → RVal F
  | Option.none => .none
  | Option.some s => .str s

/-- Python f-string rendering of a value that can be `None`. -/
def optToStr : Option String → String
  | Option.none => "None"
  | Option.some s => s

/-- Rendering of a subzone dict key (possibly `None`). -/
def keyStr : Option String → String
  | Option.none => "None"
  | Option.some s => s

/-- A heterogeneous dict value to a report value. -/
def pyValToR {F : Type} : PyVal → RVal F
  | .int n => .int n
  | .str s => .str s
  | .list l => .listV (l.map .str)

/-! ### Remaining postprocess helpers -/

/-- Translation of `Parser._get_ids` (src/parser.py:597-608). -/
def get_ids {F : Type} (subzones : List (Option String × SubzoneData))
    (number : Option String) : RVal F :=
  if subzones.isEmpty then optStr number
  else if subzones.length == 1 && (subzones.map (fun p => p.1)).getD 0 none == some "-1" then
    optStr number
  else .listV (subzones.map (fun p => .str (optToStr number ++ "№" ++ keyStr p.1)))

/-- Translation of `Parser._postprocess_subzone_numbers`
(src/parser.py:821-829). -/
def postprocess_subzone_numbers {F : Type}
    (subzones : List (Option String × SubzoneData)) : RVal F :=
  if subzones.isEmpty then .none
  else if subzones.length == 1 then .str "Нет"
  else .listV (subzones.map (fun p => .str ("№ " ++ keyStr p.1)))

/-- Translation of `Parser._postprocess_subzone_areas`
(src/parser.py:831-859). -/
def postprocess_subzone_areas (fops : FloatOps)
    (subzones : List (Option String × SubzoneData)) : RVal fops.F :=
  if subzones.isEmpty then .none
  else if subzones.length == 1 then .none
  else .listV (subzones.map (fun p =>
    let sa := p.2.area
    if sa == "-" then .none
    else
      let unitHa := pyContains sa "га"
      let sa2 := match findDigitRuns sa.toList with
        | r :: _ => String.mk r
        | [] => sa
      match fops.ofString (pyReplace sa2 "," ".") with
      | Option.none => .none
      | Option.some x => .flt (if unitHa then fops.mul10000 x else x)))

/-- Translation of `Parser._postprocess_limits` (src/parser.py:861-875). -/
def postprocess_limits {F : Type} (subzones : List (Option String × SubzoneData)) :
    RVal F × RVal F × RVal F × RVal F :=
  if subzones.isEmpty then (.none, .none, .none, .none)
  else
    (.listV (subzones.map (fun p => .str p.2.max_height)),
     .listV (subzones.map (fun p => .str p.2.max_floors)),
     .listV (subzones.map (fun p => .str p.2.max_dev_percent)),
     .listV (subzones.map (fun p => .str p.2.max_density)))

/-- `re.match("Жил(ая|ое|ой)", descr)`. -/
def matchZhil (s : String) : Bool :=
  pyStarts s "Жилая" || pyStarts s "Жилое" || pyStarts s "Жилой"

def floor_area_labels : List String :=
  ["Всего", "Жилой застройки", "Нежилой застройки", "Жилых помещений",
   "Встроенно-пристроенных, отдельно стоящих нежилых помещений"]

def total_area_labels : List String :=
  floor_area_labels ++ ["Подземного пространства"]

/-- The five values of an `area_by_floor` dict, in key order. -/
def abfValues (a : AreaByFloor) : List PyVal :=
  [a.total, a.living, a.nonliving, a.livingspace, a.builtin]

/-- The six values of an `area_total` dict, in key order. -/
def atValues (a : AreaTotal) : List PyVal :=
  [a.total, a.living, a.nonliving, a.livingspace, a.builtin, a.underground]

/-- Translation of `Parser._postprocess_cap_params` (src/parser.py:877-914).
`none` models the `[None] * 4` return for absent subzones.  The value
counts always equal the label counts (both dicts have fixed keys), so the
`dict(zip(labels, values))` branch is always the one taken. -/
def postprocess_cap_params (subzones : List (Option String × SubzoneData)) :
    Option (List (Option String) × List String ×
      List (List (String × Option PyVal)) × List (List (String × Option PyVal))) :=
  if subzones.isEmpty then none
  else some
    (subzones.map (fun p =>
        let descr := p.2.description
        if descr == "" then none
        else if matchZhil descr then some "Жилое" else some "Нежилое"),
     subzones.map (fun p => p.2.description),
     subzones.map (fun p =>
        floor_area_labels.zip ((abfValues p.2.area_by_floor).map Option.some)),
     subzones.map (fun p =>
        total_area_labels.zip ((atValues p.2.area_total).map Option.some)))

/-- `int(val)` in `_get_sums`: ints pass, numeric strings parse, `None`
and lists raise `TypeError` (which the bare `except` swallows). -/
def tryIntVal : Option PyVal → Option Int
  | Option.some (.int n) => some n
  | Option.some (.str s) => pyIntOfString s
  | Option.some (.list _) => none
  | Option.none => none

/-- Translation of `Parser._get_sums` (src/parser.py:916-933); the input
is `None` (→ `{}`) or the list of labelled dicts, whose keys coincide. -/
def get_sums (elements : Option (List (List (String × Option PyVal)))) :
    List (String × Int) :=
  match elements with
  | Option.none => []
  | Option.some [] => []
  | Option.some (e0 :: es) =>
      (e0.map (fun p => p.1)).map (fun key =>
        (key, (e0 :: es).foldl (fun acc el =>
          match tryIntVal (((el.find? (fun p => p.1 == key)).map (fun p => p.2)).getD none) with
          | Option.some n => acc + n
          | Option.none => acc) 0))

/-- Translation of `Parser._postprocess_unregulated` (src/parser.py:935-940):
`False` and `None` are both falsy, so only `"Есть"` or `None` can result. -/
def postprocess_unregulated (u : Option Bool) : Option String :=
  match u with
  | Option.some true => some "Есть"
  | _ => none

/-! ### `_postprocess_existing_cap_params` and `_postprocess_heritage` -/

/-- Count of `№` occurrences (`len(re.findall("№", text))`). -/
def countNumSigns (s : String) : Nat := s.toList.count '№'

/-- A character of `[\w\s]`. -/
def isWordOrSpace (c : Char) : Bool := pyIsWordChar c || pyIsSpace c

/-- A character of `[\d-]`. -/
def isDigitDash (c : Char) : Bool := c.isDigit || c == '-'

/-- A character of `[\d.]`. -/
def isDigitDot (c : Char) : Bool := c.isDigit || c == '.'

/-- A character of `[\w\s\d]` (equals `[\w\s]`, digits being word chars). -/
def isWordSpaceDigit (c : Char) : Bool := isWordOrSpace c || c.isDigit

/-- Longest `k ≥ 1` with `run.take k` followed (in `run.drop k ++ after`)
by `\s` then `"Адрес"` — the greedy `[\w\s]+(?=\sАдрес)` backtracking. -/
def lookaheadK (run after : List Char) : Nat → Option Nat
  | 0 => none
  | k + 1 =>
      match run.drop (k + 1) ++ after with
      | w :: rest =>
          if pyIsSpace w && listStarts "Адрес".toList rest then some (k + 1)
          else lookaheadK run after k
      | [] => lookaheadK run after k

/-- The pattern `(?<=№\s\d\sна чертеже ГПЗУ\s)[\w\s]+(?=\sАдрес)` at the
head: captured text and rest (scanning resumes at the match end, before
the lookahead). -/
def chertezhAt (l : List Char) : Option (String × List Char) :=
  match l with
  | '№' :: w1 :: d :: w2 :: rest =>
      if pyIsSpace w1 && d.isDigit && pyIsSpace w2 then
        match dropPre "на чертеже ГПЗУ".toList rest with
        | some r2 =>
            match r2 with
            | w3 :: rest2 =>
                if pyIsSpace w3 then
                  let run := rest2.takeWhile isWordOrSpace
                  let after := rest2.dropWhile isWordOrSpace
                  match lookaheadK run after run.length with
                  | some k => some (String.mk (run.take k), run.drop k ++ after)
                  | none => none
                else none
            | [] => none
        | none => none
      else none
  | _ => none

/-- `re.findall` of the `на чертеже` pattern (fueled). -/
def scanChertezhF : Nat → List Char → List String
  | 0, _ => []
  | _ + 1, [] => []
  | fuel + 1, c :: cs =>
      match chertezhAt (c :: cs) with
      | some (m, rest) => m :: scanChertezhF fuel rest
      | none => scanChertezhF fuel cs

/-- `re.findall("(?<=№\\s\\d\\sна чертеже ГПЗУ\\s)[\\w\\s]+(?=\\sАдрес)", s)`. -/
def scanChertezh (s : String) : List String :=
  scanChertezhF s.toList.length s.toList

/-- The pattern `(?<=№\d\s)[\w\s]+` at the head. -/
def numShortAt (l : List Char) : Option (String × List Char) :=
  match l with
  | '№' :: d :: w :: rest =>
      if d.isDigit && pyIsSpace w then
        let run := rest.takeWhile isWordOrSpace
        if run.isEmpty then none
        else some (String.mk run, rest.dropWhile isWordOrSpace)
      else none
  | _ => none

/-- `re.findall("(?<=№\\d\\s)[\\w\\s]+", s)` (fueled). -/
def scanNumShortF : Nat → List Char → List String
  | 0, _ => []
  | _ + 1, [] => []
  | fuel + 1, c :: cs =>
      match numShortAt (c :: cs) with
      | some (m, rest) => m :: scanNumShortF fuel rest
      | none => scanNumShortF fuel cs

/-- `re.findall("(?<=№\\d\\s)[\\w\\s]+", s)`. -/
def scanNumShort (s : String) : List String :=
  scanNumShortF s.toList.length s.toList

/-- `max([int(y) for y in x.split('-')])` for one `[\d-]+` match; `none`
models a `ValueError` from `int("")` or an empty list. -/
def maxFloorsOf (x : String) : Option Int :=
  let parts := (pySplit x "-").map pyIntOfString
  if parts.any (fun p => p.isNone) then none
  else
    match parts.filterMap id with
    | [] => none
    | n :: ns => some (ns.foldl max n)

/-- Translation of `Parser._postprocess_existing_cap_params`
(src/parser.py:942-979); the six report values in order.  A `None` text
is not equal to the absence marker, so the code proceeds to
`re.findall("№", None)` and raises `TypeError` (caught by the caller). -/
def postprocess_existing_cap_params (fops : FloatOps) (text : Option String) :
    Except PyErr (List (RVal fops.F)) :=
  match text with
  | Option.none => .error .typeError
  | Option.some t =>
      if t == "Информация отсутствует" then
        .ok [.str "Отсутствуют", .int 0, .str "Нет", .str "Нет", .int 0, .int 0]
      else
        let param2 : Int := countNumSigns t
        let p3list := (labelScan "Назначение:" pyIsWordChar t).filter
          (fun x => !(x == "Нежилое"))
        let param3 :=
          if (p3list.length : Int) == param2 then "Жилое"
          else if p3list.isEmpty then "Нежилое"
          else "Смешанное"
        let param4a := pyJoin ", " ((scanChertezh t).map pyStrip)
        let param4 :=
          if param4a == "" then pyJoin ", " ((scanNumShort t).map pyStrip)
          else param4a
        let param5 : Int :=
          let ms := (labelScan "Количество этажей:" isDigitDash t).map maxFloorsOf
          if ms.any (fun p => p.isNone) then 0
          else
            match ms.filterMap id with
            | [] => 0
            | n :: ns => ns.foldl max n
        let param6 : RVal fops.F :=
          let fs := (labelScan "Площадь:" isDigitDot t).map fops.ofString
          if fs.any (fun p => p.isNone) then .int 0
          else .flt (fops.round2 (fops.sum (fs.filterMap id)))
        .ok [.str "Присутствуют", .int param2, .str param3, .str param4,
          .int param5, param6]

/-- Translation of `Parser._postprocess_heritage` (src/parser.py:981-1008). -/
def postprocess_heritage {F : Type} (text : Option String) :
    Except PyErr (List (RVal F)) :=
  match text with
  | Option.none => .error .typeError
  | Option.some t =>
      if t == "Информация отсутствует" then
        .ok [.str "Отсутствуют", .int 0, .str "Нет", .str "Нет", .str "Нет"]
      else
        let param2 : Int := countNumSigns t
        let p3a := pyJoin "; " (labelScan "Наименование объекта:" isWordSpaceDigit t)
        let param3 :=
          if p3a == "" then pyJoin "; " (labelScan "Наименование ансамбля:" isWordSpaceDigit t)
          else p3a
        let param4 := pyJoin "; " (labelScan "Идентификационный номер объекта:"
          Char.isDigit t)
        let param5 := pyJoin "; " (labelScan "Регистрационный номер объекта:"
          Char.isDigit t)
        let param3 := if param3 == "" then "-" else param3
        let param4 := if param4 == "" then "-" else param4
        let param5 := if param5 == "" then "-" else param5
        .ok [.str "Присутствуют", .int param2, .str param3, .str param4, .str param5]

/-! ### Parser state and the parse pipeline -/

/-- `self._data`: the raw values the extraction steps deposit.  Python
`.get` treats a missing key and a stored `None` identically, so both are
`none` here. -/
structure ParserData where
  number : Option String := none
  rightsholder : Option String := none
  location : Option String := none
  cad_number : Option String := none
  area : Option String := none
  ppt_pmt : Option String := none
  usekinds : Option String := none
  capital_buildinds_presence : Option String := none
  capital_buildings_descr : Option String := none
  heritage : Option String := none
  start_date : Option Date := none
  end_date : Option Date := none
  status : Option String := none
  subzones : Option (List (Option String × SubzoneData)) := none
  has_unregulated_objects : Option Bool := none

/-- Store the attribute values produced by `_extract_from_text` under
their names. -/
def applyAttrs (d : ParserData) (attrs : List (String × Option String)) : ParserData :=
  attrs.foldl (fun d p =>
    if p.1 == "rightsholder" then { d with rightsholder := p.2 }
    else if p.1 == "location" then { d with location := p.2 }
    else if p.1 == "cad_number" then { d with cad_number := p.2 }
    else if p.1 == "area" then { d with area := p.2 }
    else if p.1 == "ppt_pmt" then { d with ppt_pmt := p.2 }
    else if p.1 == "usekinds" then { d with usekinds := p.2 }
    else if p.1 == "capital_buildinds_presence" then
      { d with capital_buildinds_presence := p.2 }
    else if p.1 == "capital_buildings_descr" then
      { d with capital_buildings_descr := p.2 }
    else if p.1 == "heritage" then { d with heritage := p.2 }
    else d) d

/-- Translation of `Parser._postprocess` (src/parser.py:501-595): the
seven report sections, in order.  The `try/except` blocks around the
location, existing-capital and heritage computations collapse their
outputs to `None` on any exception. -/
def postprocess (sv : MorphService) (fops : FloatOps)
    (districtData : List DistrictRow) (districts : List (String × String))
    (typ : Option String) (d : ParserData) : Report fops.F :=
  let subzones := d.subzones.getD []
  let gpzu_basic_info : List (String × RVal fops.F) :=
    [("Уникальный номер записи", get_ids subzones d.number),
     ("Номер документа ГПЗУ", optStr d.number),
     ("Дата выдачи ГПЗУ", optStr (format_date d.start_date)),
     ("Статус ГПЗУ", optStr d.status),
     ("Срок действия ГПЗУ", optStr (format_date d.end_date)),
     ("Правообладатель или иной получатель ГПЗУ",
       optStr (postprocess_rightsholder sv typ d.rightsholder)),
     ("Тип правообладателя или получателя ГПЗУ",
       optStr (detect_rightsholder_type d.rightsholder))]
  let loc := postprocess_location sv districtData districts d.location
  let pp := postprocess_ppt_pmt d.ppt_pmt
  let gpzu_location : List (String × RVal fops.F) :=
    [("Административный округ", optStr loc.1),
     ("Район (поселение)", optStr loc.2.1),
     ("Строительный адрес", optStr loc.2.2),
     ("Кадастровый номер земельного участка (ЗУ) или условный номер",
       optStr (postprocess_cad_number d.cad_number)),
     ("Наличие проекта планировки территории (ППТ) в границах ГПЗУ реквизиты документа",
       optStr pp.1.status),
     ("Реквизиты документа ППТ", .str pp.1.details),
     ("Наличие отдельного проекта межевания территории в границах ГПЗУ",
       optStr pp.2.status),
     ("Реквизиты проекта межевания территории", .str pp.2.details)]
  let uk := postprocess_usekinds d.usekinds
  let usekinds : List (String × RVal fops.F) :=
    [("Наименование условной группы использования ЗУ по ВРИ", optStr uk.1),
     ("Коды основных видов разрешенного использования (ВРИ) земельного  участка (ЗУ)",
       optStr uk.2)]
  let spatial_params : List (String × RVal fops.F) :=
    [("Площадь земельного  участка (ЗУ), кв.м",
       match postprocess_area d.area with
       | Option.none => .none
       | Option.some n => .int n),
     ("Наличие подзон ЗУ, номера", postprocess_subzone_numbers subzones),
     ("Площади подзон ЗУ, кв.м", postprocess_subzone_areas fops subzones)]
  let lims := postprocess_limits (F := fops.F) subzones
  let limits : List (String × RVal fops.F) :=
    [("Высота застройки , м", lims.1),
     ("Количество надземных этажей, шт", lims.2.1),
     ("Процент застроенности, %", lims.2.2.1),
     ("Плотность застройки, тыс. кв. м/га", lims.2.2.2)]
  let cp := postprocess_cap_params subzones
  let objectives : RVal fops.F := match cp with
    | Option.none => .none
    | Option.some c => .listV (c.1.map optStr)
  let descriptions : RVal fops.F := match cp with
    | Option.none => .none
    | Option.some c => .listV (c.2.1.map .str)
  let fadToR : List (String × Option PyVal) → RVal fops.F := fun l =>
    .dictV (l.map (fun p => (p.1, match p.2 with
      | Option.none => .none
      | Option.some pv => pyValToR pv)))
  let floor_areas : RVal fops.F := match cp with
    | Option.none => .none
    | Option.some c => .listV (c.2.2.1.map fadToR)
  let total_areas : RVal fops.F := match cp with
    | Option.none => .none
    | Option.some c => .listV (c.2.2.2.map fadToR)
  let sumsToR : List (String × Int) → RVal fops.F := fun l =>
    .dictV (l.map (fun p => (p.1, .int p.2)))
  let cap_params : List (String × RVal fops.F) :=
    [("Назначение ОКС", objectives),
     ("Наименование, описание ОКС", descriptions),
     ("Наличие объектов на которые действие градостроительного регламента не распространяется или не устанавливается",
       optStr (postprocess_unregulated d.has_unregulated_objects)),
     ("Суммарная поэтажная площадь наземной части зданий и сооружений в габаритах наружных стен, кв.м",
       floor_areas),
     ("Общая площадь зданий и сооружений, кв.м", total_areas),
     ("Суммарная поэтажная площадь наземной части зданий и сооружений в габаритах наружных стен по всем подзонам, кв.м",
       sumsToR (get_sums (cp.map (fun c => c.2.2.1)))),
     ("Общая площадь зданий и сооружений по всем подзонам, кв.м",
       sumsToR (get_sums (cp.map (fun c => c.2.2.2))))]
  let ec : List (RVal fops.F) :=
    match postprocess_existing_cap_params fops d.capital_buildings_descr with
    | .ok l => l
    | .error _ => [.none, .none, .none, .none, .none, .none]
  let existing_cap_params : List (String × RVal fops.F) :=
    [("Наличие или отсутствие существующих на ЗУ ОКС", ec.getD 0 .none),
     ("Общее число существующих ОКС, единиц", ec.getD 1 .none),
     ("Назначение существующих ОКС", ec.getD 2 .none),
     ("Наименование, описание существующих ОКС", ec.getD 3 .none),
     ("Максимальное число наземных этажей существующих ОКС", ec.getD 4 .none),
     ("Общая площадь существующих ОКС, кв.м", ec.getD 5 .none)]
  let hr : List (RVal fops.F) :=
    match postprocess_heritage (F := fops.F) d.heritage with
    | .ok l => l
    | .error _ => [.none, .none, .none, .none, .none]
  let heritage : List (String × RVal fops.F) :=
    [("Наличие или отсутствие существующих на ЗУ ОКН", hr.getD 0 .none),
     ("Общее число существующих на ЗУ ОКН", hr.getD 1 .none),
     ("Наименование, описание ОКН", hr.getD 2 .none),
     ("Идентификационный номер ОКН", hr.getD 3 .none),
     ("Регистрационный номер ОКН", hr.getD 4 .none)]
  [("Реквизиты ГПЗУ", gpzu_basic_info),
   ("Территория (Местоположение) земельного участка (ЗУ)", gpzu_location),
   ("Виды разрешенного использования земельного участка (ВРИ ЗУ)", usekinds),
   ("Территориальные показатели ГПЗУ", spatial_params),
   ("Предельные параметры разрешенного строительства, реконструкции объектов капитального строительства (ОКС)",
     limits),
   ("Параметры и площади строящихся и реконструируемых объектов капитального строительства (ОКС) на ЗУ",
     cap_params),
   ("Параметры и площади существующих на ЗУ объектов капитального строительства (ОКС)",
     existing_cap_params),
   ("Объекты,включенные в единый государственный реестр объектов культурного наследия (ОКН)",
     heritage)]

/-- The object state of one `Parser` instance: the variant (`self._type`,
set in `__init__` and NOT reset by `load_pdf`) and the per-document
fields. -/
structure ParserState (F : Type) where
  typ : Option String
  text : List (Nat × String)
  tables : List RawTable
  data : ParserData
  parsed : Report F

/-- `load_pdf` (src/parser.py:120-151) as seen by the core: `_text`,
`_tables`, `_data`, `_parsed` are re-initialized from the source/cache;
`_type` persists. -/
def load_pdf {F : Type} (st : ParserState F) (text : List (Nat × String))
    (tables : List RawTable) : ParserState F :=
  { st with text := text, tables := tables, data := {}, parsed := [] }

/-- The pipeline from `_set_type` onward (everything in `parse()` after
the number extraction), as a function of the variant in effect, the
page text, the tables and the current date.  Returns the final `_data`,
the final `_parsed`, and the exception that aborted the run, if any. -/
def parseCore (sv : MorphService) (fops : FloatOps)
    (districtData : List DistrictRow) (districts : List (String × String))
    (today : Date) (typ : Option String) (text : List (Nat × String))
    (tables : List RawTable) (num : String) :
    ParserData × Report fops.F × Option PyErr :=
  let d : ParserData := { number := some num }
  let (attrs, err) := extract_from_text typ text
  let d := applyAttrs d attrs
  match err with
  | some e => (d, [], some e)
  | none =>
      match extract_date text with
      | .error e => (d, [], some e)
      | .ok sd =>
          let d := { d with start_date := sd }
          match get_end_date sd with
          | .error e => (d, [], some e)
          | .ok ed =>
              let d := { d with end_date := ed }
              let d := { d with status := get_status text ed today }
              match extract_from_limits_table tables with
              | .error e => (d, [], some e)
              | .ok szs =>
                  let d := { d with subzones := some szs }
                  match extract_from_unregulated_objects_table tables with
                  | .error e => (d, [], some e)
                  | .ok hu =>
                      let d := { d with has_unregulated_objects := some hu }
                      (d, postprocess sv fops districtData districts typ d, none)

/-- Translation of `Parser.parse` (src/parser.py:153-170): number, then
variant, then text/date/table extraction, then postprocessing; an
exception anywhere aborts the remaining steps, leaving the state written
so far. -/
def parse (sv : MorphService) (fops : FloatOps)
    (districtData : List DistrictRow) (districts : List (String × String))
    (today : Date) (st : ParserState fops.F) :
    ParserState fops.F × Option PyErr :=
  match extract_number st.text with
  | .error e => (st, some e)
  | .ok num =>
      let typ := set_type st.typ num
      let r := parseCore sv fops districtData districts today typ st.text st.tables num
      ({ st with typ := typ, data := r.1, parsed := r.2.1 }, r.2.2)

/-- What `get_result` hands to the caller. -/
inductive GetResultOut (F : Type) where
  | report (r : Report F)
  | sentinel

/-- Translation of `Parser.get_result` (src/parser.py:214-218): the
parsed report when non-empty, else the `{status: "Error"}` sentinel. -/
def get_result {F : Type} (parsed : Report F) : GetResultOut F :=
  if parsed.isEmpty then .sentinel else .report parsed

/-- One full run as the callers perform it (`app.py:parse_and_save_file`,
`main.py`): (re)load the document, run `parse()` with its exceptions
caught, and hand `get_result()` to the caller.  Returns the output and
the parser state left behind. -/
def runOnce (sv : MorphService) (fops : FloatOps)
    (districtData : List DistrictRow) (districts : List (String × String))
    (today : Date) (st : ParserState fops.F) (text : List (Nat × String))
    (tables : List RawTable) : GetResultOut fops.F × ParserState fops.F :=
  let st1 := load_pdf st text tables
  let r := parse sv fops districtData districts today st1
  (get_result r.1.parsed, r.1)

/-! ### Lemmas about digit-run scanning -/

theorem findDigitRuns_eq_nil {l : List Char} (h : l.all (fun c => !c.isDigit) = true) :
    findDigitRuns l = [] := by
  induction l with
  | nil => simp [findDigitRuns]
  | cons c cs ih =>
      simp only [List.all_cons, Bool.and_eq_true, Bool.not_eq_true'] at h
      rw [findDigitRuns]
      simp [h.1, ih (by simpa using h.2)]

theorem findDigitRuns_skip {pre l : List Char} (h : pre.all (fun c => !c.isDigit) = true) :
    findDigitRuns (pre ++ l) = findDigitRuns l := by
  induction pre with
  | nil => simp
  | cons c cs ih =>
      simp only [List.all_cons, Bool.and_eq_true, Bool.not_eq_true'] at h
      rw [List.cons_append, findDigitRuns]
      simp [h.1, ih (by simpa using h.2)]

theorem takeDropWhile_append_of_all {p : Char → Bool} {l post : List Char}
    (hl : l.all p = true) (hp : post.head?.all (fun c => !p c) = true) :
    (l ++ post).takeWhile p = l ∧ (l ++ post).dropWhile p = post := by
  induction l with
  | nil =>
      cases post with
      | nil => simp
      | cons c cs =>
          simp only [List.head?, Option.all_some, Bool.not_eq_true'] at hp
          simp [List.takeWhile, List.dropWhile, hp]
  | cons a l ih =>
      simp only [List.all_cons, Bool.and_eq_true] at hl
      have := ih hl.2
      simp [List.takeWhile, List.dropWhile, hl.1, this.1, this.2]

theorem findDigitRuns_first {run post : List Char} (hne : run ≠ [])
    (hrun : run.all Char.isDigit = true)
    (hp : post.head?.all (fun c => !c.isDigit) = true) :
    findDigitRuns (run ++ post) = run :: findDigitRuns post := by
  cases run with
  | nil => exact absurd rfl hne
  | cons c rs =>
      simp only [List.all_cons, Bool.and_eq_true] at hrun
      have hC := takeDropWhile_append_of_all hrun.2 hp
      rw [List.cons_append, findDigitRuns]
      simp [hrun.1, hC.1, hC.2]

/-! ### Date lemmas -/

set_option maxHeartbeats 4000000 in
/-- Validation of the ordinal-based model of `timedelta` addition: over the
years the extension logic touches, `days_from_civil` advances by exactly 1
on `nextDay` and round-trips through `civil_from_days`. -/
theorem ordinal_model_agrees_with_nextDay :
    ∀ yo < 16, ∀ m < 13, ∀ d < 32,
      validDate (2015 + yo) m d = true →
      days_from_civil (nextDay ⟨2015 + yo, m, d⟩) =
          days_from_civil ⟨2015 + yo, m, d⟩ + 1 ∧
        civil_from_days (days_from_civil ⟨2015 + yo, m, d⟩) = ⟨2015 + yo, m, d⟩ := by
  decide

set_option maxHeartbeats 2000000 in
/-- Inside either legislative-extension window, adding 365 days is the same
as incrementing the year (no February 29 lies in the way). -/
theorem addDays_365_window :
    ∀ yo < 4, ∀ m < 13, ∀ d < 32,
      validDate (2020 + yo) m d = true →
      spec_in_extension_windows ⟨2020 + yo, m, d⟩ = true →
      addDays ⟨2020 + yo, m, d⟩ 365 = ⟨2020 + yo + 1, m, d⟩ := by
  decide

theorem daysInMonth_le_31 (y m : Nat) : daysInMonth y m ≤ 31 := by
  unfold daysInMonth
  split
  · split <;> omega
  · split <;> omega

theorem window_year_bounds {b : Date} (h : spec_in_extension_windows b = true) :
    2020 ≤ b.year ∧ b.year ≤ 2023 := by
  simp only [spec_in_extension_windows, dateLe, Bool.or_eq_true, Bool.and_eq_true,
    decide_eq_true_eq, beq_iff_eq] at h
  omega

theorem valid_plus3 {y m d : Nat} (hv : validDate y m d = true)
    (hy : y + 3 ≤ 9999) (hfeb : m = 2 ∧ d = 29 → False) :
    validDate (y + 3) m d = true := by
  simp only [validDate, Bool.and_eq_true, decide_eq_true_eq] at hv ⊢
  obtain ⟨⟨⟨⟨⟨h1, h2⟩, h3⟩, h4⟩, h5⟩, h6⟩ := hv
  by_cases hm2 : m = 2
  · subst hm2
    have h29 : daysInMonth y 2 ≤ 29 := by
      unfold daysInMonth
      simp only [beq_self_eq_true, if_true]
      split <;> omega
    have hne : d ≠ 29 := fun h => hfeb ⟨rfl, h⟩
    have h28 : 28 ≤ daysInMonth (y + 3) 2 := by
      unfold daysInMonth
      simp only [beq_self_eq_true, if_true]
      split <;> omega
    exact ⟨⟨⟨⟨⟨by omega, by omega⟩, h3⟩, h4⟩, h5⟩, by omega⟩
  · have heq : daysInMonth (y + 3) m = daysInMonth y m := by
      unfold daysInMonth
      simp [show (m == 2) = false from by simpa using hm2]
    exact ⟨⟨⟨⟨⟨by omega, by omega⟩, h3⟩, h4⟩, h5⟩, by rw [heq]; exact h6⟩

/-! ### Claim theorems: C7 and C4 -/

theorem takeWhile_all_eq {α : Type} {p : α → Bool} {l : List α}
    (h : l.all p = true) : l.takeWhile p = l := by
  induction l with
  | nil => rfl
  | cons a l ih =>
      simp only [List.all_cons, Bool.and_eq_true] at h
      simp [List.takeWhile, h.1, ih h.2]

/-! ### Claim theorems: C1 -/

theorem limitsMarkerScanGo_wrong :
    ∀ (pre : List (List (Option String))) (r : List (Option String))
      (rest : List (List (Option String))) (idx : Nat),
      pre.all (fun rw => match rw.head? with
        | some c => !pyStarts (cellStr c) "1"
        | none => false) = true →
      (match r.head? with | some c => pyStarts (cellStr c) "1" | none => false) = true →
      pyEnds (cellStr (r.getLast?.getD none)) "8" = false →
      limitsMarkerScanGo (pre ++ r :: rest) idx = .wrongTable := by
  intro pre
  induction pre with
  | nil =>
      intro r rest idx hpre hr hlast
      match r, hr, hlast with
      | [], hr, _ => simp at hr
      | c :: cs, hr, hlast =>
          simp only [List.head?] at hr
          simp [limitsMarkerScanGo, hr, hlast]
  | cons p ps ih =>
      intro r rest idx hpre hr hlast
      simp only [List.all_cons, Bool.and_eq_true] at hpre
      match p, hpre with
      | [], hpre => simp at hpre
      | c0 :: cs0, hpre =>
          simp only [List.head?] at hpre
          have h0 : pyStarts (cellStr c0) "1" = false := by simpa using hpre.1
          simp only [List.cons_append]
          rw [show limitsMarkerScanGo ((c0 :: cs0) :: (ps ++ r :: rest)) idx =
              limitsMarkerScanGo (ps ++ r :: rest) (idx + 1) from by
            simp [limitsMarkerScanGo, h0]]
          exact ih r rest (idx + 1) hpre.2 hr hlast

/-- Claim C1 (amended): `SubzoneTableParser.parse` returns the empty
subzone mapping when the raw-table list is empty, and — for the candidate
table it actually processes (the first whose header starts with the
development-limits caption, or, because the caption loop has no `else`
clause, the LAST table when none matches) — when the first row whose
first cell starts with `"1"` has a last cell that does not end with `"8"`
(the "wrong table" check).  The original claim's "no caption match implies
empty mapping and no exception" is false: the last table is processed
anyway, and e.g. a candidate with no rows leaves the loop index unbound
and raises `NameError` — see the counterexample theorem. -/
theorem c1_limits_table_rejections :
    extract_from_limits_table [] = .ok [] ∧
    (∀ (tables : List RawTable) (t0 : RawTable)
      (pre : List (List (Option String))) (r : List (Option String))
      (rest : List (List (Option String))),
      tables ≠ [] →
      selectCaptionTable tables "Предельные (минимальные" = .ok t0 →
      (dropAllNaCols t0).rows = pre ++ r :: rest →
      pre.all (fun rw => match rw.head? with
        | some c => !pyStarts (cellStr c) "1"
        | none => false) = true →
      (match r.head? with | some c => pyStarts (cellStr c) "1" | none => false) = true →
      pyEnds (cellStr (r.getLast?.getD none)) "8" = false →
      extract_from_limits_table tables = .ok []) := by
  refine ⟨by rfl, ?_⟩
  intro tables t0 pre r rest hne hsel hrows hpre hr hlast
  have hlen : (tables.length == 0) = false := by
    cases tables with
    | nil => exact absurd rfl hne
    | cons a l => rfl
  have hscan : limitsMarkerScan (dropAllNaCols t0).rows = .wrongTable := by
    rw [hrows]
    cases pre with
    | nil =>
        have := limitsMarkerScanGo_wrong [] r rest 0 (by simp) hr hlast
        simpa [limitsMarkerScan] using this
    | cons p ps =>
        have := limitsMarkerScanGo_wrong (p :: ps) r rest 0 hpre hr hlast
        simpa [limitsMarkerScan] using this
  unfold extract_from_limits_table
  simp [hlen, hsel, hscan]

/-- Witness for the amended C1: a caption-matching table whose first
`"1"`-row fails the 8-column check yields the empty mapping. -/
theorem c1_limits_table_rejections_witness :
    extract_from_limits_table
      [⟨[some "Предельные (минимальные и максимальные) параметры"],
        [[some "шапка"], [some "1 2 3"]]⟩] = .ok [] :=
  c1_limits_table_rejections.2
    [⟨[some "Предельные (минимальные и максимальные) параметры"],
      [[some "шапка"], [some "1 2 3"]]⟩]
    ⟨[some "Предельные (минимальные и максимальные) параметры"],
      [[some "шапка"], [some "1 2 3"]]⟩
    [[some "шапка"]] [some "1 2 3"] []
    (by decide) (by rfl) (by rfl) (by decide) (by decide) (by decide)

/-- Counterexample to C1 as stated: a single table whose header does NOT
start with the development-limits caption (so the claim demands the empty
mapping and no exception) is still processed — the caption loop leaves the
loop variable at the last table — and, having no rows, leaves the row
index unbound: `parse` raises `NameError` instead of returning the empty
mapping. -/
theorem c1_no_caption_still_processes_last_table :
    headerMatchesCaption ⟨[some "Другая таблица"], []⟩ "Предельные (минимальные" = false ∧
    extract_from_limits_table [⟨[some "Другая таблица"], []⟩] = .error .nameError :=
  ⟨by decide, by rfl⟩

/-! ### Claim theorems: C3 -/

theorem col0StartsWith_ok {t : RawTable} {cap : String} {b : Bool}
    (h : col0StartsWith t cap = .ok b) : headerMatchesCaption t cap = b := by
  unfold col0StartsWith at h
  unfold headerMatchesCaption
  match hh : t.header with
  | [] => simp [hh] at h
  | none :: _ => simp [hh] at h
  | some s :: _ =>
      rw [hh] at h
      simp only [Except.ok.injEq] at h
      simp [h]

theorem findCaptionIdx_of_no_match (cap : String) :
    ∀ (tables : List RawTable) (idx : Nat),
      tables.all (fun t => !headerMatchesCaption t cap) = true →
      findCaptionIdx tables cap idx = .ok none ∨
        ∃ e, findCaptionIdx tables cap idx = .error e := by
  intro tables
  induction tables with
  | nil => exact fun _ _ => .inl rfl
  | cons t rest ih =>
      intro idx h
      simp only [List.all_cons, Bool.and_eq_true, Bool.not_eq_true'] at h
      unfold findCaptionIdx
      match hh : col0StartsWith t cap with
      | .error e => exact .inr ⟨e, rfl⟩
      | .ok b =>
          have hb : b = false := by
            have := col0StartsWith_ok hh
            rw [h.1] at this
            exact this.symm
          subst hb
          exact ih (idx + 1) (by simpa using h.2)

/-- Claim C3 (amended): with an empty table list,
`UnregulatedObjectsChecker.check` returns `false` without error; but with
a non-empty list in which no table's header starts with the
"reasons for exemption" caption, the `has_data` local is never assigned
and the check raises `UnboundLocalError` instead of returning `false`. -/
theorem c3_no_caption_false_only_when_empty :
    extract_from_unregulated_objects_table [] = .ok false ∧
    (∀ tables : List RawTable, tables ≠ [] →
      tables.all (fun t => !headerMatchesCaption t "Причины отнесения") = true →
      ∃ e, extract_from_unregulated_objects_table tables = .error e) := by
  refine ⟨by rfl, ?_⟩
  intro tables hne hall
  have hlen : (tables.length == 0) = false := by
    cases tables with
    | nil => exact absurd rfl hne
    | cons t rest => rfl
  unfold extract_from_unregulated_objects_table
  rcases findCaptionIdx_of_no_match "Причины отнесения" tables 0 hall with h | ⟨e, h⟩
  · exact ⟨.nameError, by simp [hlen, h]⟩
  · exact ⟨e, by simp [hlen, h]⟩

/-- Witness for the amended C3 at a concrete non-matching one-table list. -/
theorem c3_no_caption_false_only_when_empty_witness :
    ∃ e, extract_from_unregulated_objects_table
      [⟨[some "Иная таблица"], []⟩] = .error e :=
  c3_no_caption_false_only_when_empty.2 [⟨[some "Иная таблица"], []⟩]
    (by decide) (by decide)

/-- Counterexample to C3 as stated: one table whose header does not start
with the caption (its body shape does not matter) makes the check raise
`UnboundLocalError` — it neither returns `false` nor avoids an error. -/
theorem c3_nonmatching_table_raises :
    extract_from_unregulated_objects_table
      [⟨[some "Вспомогательная таблица"], [[some "1", some "8"]]⟩] =
        .error .nameError := by rfl

/-! ### Claim theorems: C2, C6, C10 -/

theorem firstNumberLine_eq_empty {ls : List String}
    (h : ls.all (fun s => !pyStarts s "№") = true) : firstNumberLine ls = "" := by
  induction ls with
  | nil => rfl
  | cons s rest ih =>
      simp only [List.all_cons, Bool.and_eq_true, Bool.not_eq_true'] at h
      simp [firstNumberLine, h.1, ih (by simpa using h.2)]

/-- Claim C2 (amended): when page 1 of the raw text is present but none of
its lines starts with the `"№"` marker, the extracted number is the empty
string and the variant stays undetermined — silently.  When page 1 is
absent, however, `self._text[1]` raises `KeyError` instead of completing
silently: see the counterexample theorem. -/
theorem c2_no_number_line_is_silent :
    ∀ (text : List (Nat × String)) (p1 : String),
      textGet text 1 = some p1 →
      (pySplit p1 "\n").all (fun s => !pyStarts s "№") = true →
      extract_number text = .ok "" ∧ set_type none "" = none := by
  intro text p1 h1 h2
  refine ⟨?_, rfl⟩
  unfold extract_number
  rw [h1]
  simp [firstNumberLine_eq_empty h2]

/-- Witness for the amended C2 on a one-page text with no number line. -/
theorem c2_no_number_line_is_silent_witness :
    extract_number [(1, "Номер отсутствует")] = .ok "" ∧ set_type none "" = none :=
  c2_no_number_line_is_silent [(1, "Номер отсутствует")] "Номер отсутствует"
    (by rfl) (by decide)

/-- Counterexample to C2 as stated: with page 1 absent (here: a text that
only has a page 2), number extraction raises `KeyError` rather than
silently producing the empty string. -/
theorem c2_missing_page1_raises :
    extract_number [(2, "№ RU77-123")] = .error .keyError := by rfl

/-- Claim C6 (amended): for every anchor-map entry whose start and stop
anchors are non-empty and whose offset is non-zero (all entries of the two
anchor maps are of this shape; the truthiness guard of
`_get_attr_by_position` returns `None` otherwise — see the counterexample
theorem), on a non-empty line list containing a start-anchor line at first
index `i` and no stop-anchor line at or after the value start `i + offset`,
extraction of an unbounded-length field returns all lines from the value
start to the end of input, joined with single spaces. -/
theorem c6_unbounded_field_runs_to_end :
    ∀ (lines : List String) (start : Nat) (sh st : String) (off i : Nat),
      lines.isEmpty = false → start ≠ 0 → sh ≠ "" → st ≠ "" → off ≠ 0 →
      findStartIdx lines sh = some i →
      (lines.drop (i + off)).all (fun line => !pyStarts line st) = true →
      get_attr_by_position lines start sh st off none =
        .ok (some (pyJoin " " (lines.drop (i + off)))) := by
  intro lines start sh st off i hne hs hsh hst ho hidx hall
  have g1 : (start == 0) = false := by simpa using hs
  have g2 : (sh == "") = false := by simpa using hsh
  have g3 : (st == "") = false := by simpa using hst
  have g4 : (off == 0) = false := by simpa using ho
  unfold get_attr_by_position
  rw [hne, g1, g2, g3, g4, hidx]
  simp [takeWhile_all_eq hall]

/-- Witness for the amended C6: anchor found on line 0, stop anchor absent,
value runs to the end of input. -/
theorem c6_unbounded_field_runs_to_end_witness :
    get_attr_by_position ["Заголовок: раздел", "значение 1", "значение 2"] 2
        "Заголовок" "Стоп" 1 none = .ok (some "значение 1 значение 2") := by
  have h := c6_unbounded_field_runs_to_end
    ["Заголовок: раздел", "значение 1", "значение 2"] 2 "Заголовок" "Стоп" 1 0
    (by rfl) (by decide) (by decide) (by decide) (by decide) (by rfl) (by decide)
  exact h.trans (by rfl)

/-- Counterexample to C6 as stated: with a zero line offset (a degenerate
but well-formed anchor-map entry) the truthiness guard makes the function
return `None`, not the tail of the input from the value start. -/
theorem c6_zero_offset_returns_none :
    findStartIdx ["Анкор строка"] "Анкор" = some 0 ∧
    (["Анкор строка"].drop (0 + 0)).all (fun line => !pyStarts line "Стоп") = true ∧
    pyJoin " " (["Анкор строка"].drop (0 + 0)) = "Анкор строка" ∧
    get_attr_by_position ["Анкор строка"] 2 "Анкор" "Стоп" 0 none = .ok none := by
  exact ⟨by rfl, by decide, by rfl, by rfl⟩

/-- Claim C10: there is a line sequence and a one-line anchor-map field
(the `cad_number` entry of `HEADERS_RU`: offset 1, length 1) whose anchor
matches the last line, so the value index `i + offset` is past the end of
input and `text[attr_value_start]` raises `IndexError`; the loop of
`_extract_from_text` aborts, keeping only the attributes extracted before
(`rightsholder` and `location`, both absent) and dropping the rest. -/
theorem c10_one_line_field_out_of_range_aborts :
    extract_from_text (some "RU") [(1, "Кадастровый номер земельного участка")] =
      ([("rightsholder", none), ("location", none)], some .indexError) := by rfl

/-- Claim C7: for every raw area string, the normalized area is the first
digit run parsed as an integer, multiplied by 10000 when the string
contains the hectare marker `"га"` and left unscaled otherwise; a string
with no digit run yields `none`.  The digit run is characterized
positionally: `s = pre ++ run ++ post` with no digit in `pre`, `run` a
non-empty digit run, and `post` not beginning with a digit. -/
theorem c7_area_first_digit_run_scaled :
    (∀ s : String, s.toList.all (fun c => !c.isDigit) = true →
        postprocess_area (some s) = none) ∧
    (∀ (s : String) (pre run post : List Char),
        s.toList = pre ++ run ++ post →
        pre.all (fun c => !c.isDigit) = true →
        run ≠ [] →
        run.all Char.isDigit = true →
        post.head?.all (fun c => !c.isDigit) = true →
        postprocess_area (some s) =
          some (digitsToNat run * (if pyContains s "га" then 10000 else 1))) := by
  constructor
  · intro s h
    have h0 : findDigitRuns s.data = [] := findDigitRuns_eq_nil h
    simp [postprocess_area, h0]
  · intro s pre run post hs hpre hne hrun hpost
    have hs2 : s.data = pre ++ run ++ post := hs
    have h1 : findDigitRuns s.data = run :: findDigitRuns post := by
      rw [hs2, List.append_assoc, findDigitRuns_skip hpre,
        findDigitRuns_first hne hrun hpost]
    by_cases hga : pyContains s "га" = true
    · simp [postprocess_area, h1, hga]
    · simp only [Bool.not_eq_true] at hga
      simp [postprocess_area, h1, hga]

/-- Witness for C7: `"1,5 га"` (first digit run `1`, hectare marker)
normalizes to `10000`, and a digitless string normalizes to `none`. -/
theorem c7_area_first_digit_run_scaled_witness :
    postprocess_area (some "1,5 га") = some 10000 ∧
    postprocess_area (some "нет цифр") = none := by
  constructor
  · have h := c7_area_first_digit_run_scaled.2 "1,5 га" [] ['1'] ",5 га".toList
      (by decide) (by decide) (by decide) (by decide) (by decide)
    exact h.trans (congrArg some (by decide))
  · exact c7_area_first_digit_run_scaled.1 "нет цифр" (by decide)

/-! ### Claim theorems: C8 and C9 -/

/-- Claim C8: with no text at all (empty page map), the parse aborts
before `_postprocess`, `self._parsed` stays empty, and the caller
receives the `{status: "Error"}` sentinel from `get_result`; and whenever
the parse produced a non-empty report, `get_result` returns that report
rather than the sentinel. -/
theorem c8_sentinel_iff_no_report :
    (∀ (sv : MorphService) (fops : FloatOps) (dd : List DistrictRow)
        (ds : List (String × String)) (today : Date) (st : ParserState fops.F)
        (tables : List RawTable),
      (runOnce sv fops dd ds today st [] tables).1 = .sentinel) ∧
    (∀ (F : Type) (parsed : Report F), parsed ≠ [] →
      get_result parsed = .report parsed) := by
  constructor
  · intro sv fops dd ds today st tables
    rfl
  · intro F parsed hne
    unfold get_result
    simp [hne]

/-- Witness for C8: a concrete empty-text run yields the sentinel, and a
concrete non-empty report is returned as-is. -/
theorem c8_sentinel_iff_no_report_witness :
    (runOnce trivMorph trivFloat [] [] ⟨2024, 1, 1⟩
        ⟨none, [], [], {}, []⟩ [] []).1 = .sentinel ∧
    get_result [("Реквизиты ГПЗУ", [])] =
      .report (F := Unit) [("Реквизиты ГПЗУ", [])] :=
  ⟨c8_sentinel_iff_no_report.1 trivMorph trivFloat [] [] ⟨2024, 1, 1⟩
      ⟨none, [], [], {}, []⟩ [],
   c8_sentinel_iff_no_report.2 Unit [("Реквизиты ГПЗУ", [])] (by simp)⟩

theorem set_type_idem (t : Option String) (n : String) :
    set_type (set_type t n) n = set_type t n := by
  unfold set_type
  by_cases h1 : pyStarts n "RU" = true
  · simp [h1]
  · by_cases h2 : pyStarts n "РФ" = true
    · simp [h1, h2]
    · simp [h1, h2]

/-- Claim C9: running the full pipeline twice on identical `RawText` and
`RawTables` inputs, with the same services (morphology, floats, district
reference data) and the same current date, yields identical outputs; and
the run leaves the stored text and tables equal to its inputs (the model
threads the parser state explicitly, and the only state surviving
`load_pdf` is the variant `self._type`, whose update `_set_type` is
idempotent on the same document number). -/
theorem c9_pipeline_deterministic :
    ∀ (sv : MorphService) (fops : FloatOps) (dd : List DistrictRow)
      (ds : List (String × String)) (today : Date) (st : ParserState fops.F)
      (text : List (Nat × String)) (tables : List RawTable),
      (runOnce sv fops dd ds today st text tables).1 =
        (runOnce sv fops dd ds today
          (runOnce sv fops dd ds today st text tables).2 text tables).1 ∧
      (runOnce sv fops dd ds today st text tables).2.text = text ∧
      (runOnce sv fops dd ds today st text tables).2.tables = tables := by
  intro sv fops dd ds today st text tables
  unfold runOnce load_pdf parse
  dsimp only
  cases hn : extract_number text with
  | error e => exact ⟨rfl, rfl, rfl⟩
  | ok num =>
      dsimp only
      rw [set_type_idem]
      exact ⟨rfl, rfl, rfl⟩

/-- Claim C5 (amended): for every determined `start_date` that is not a
February 29 and whose year is at most 9996, `_get_end_date` returns
exactly the specification's formula: `start_date + 3 years`, extended by
one further calendar year precisely when the unextended result falls in
`2020-04-06..2021-01-01` or `2022-04-13..2023-01-01` (the code adds 365
days, which coincides with one calendar year on those windows); in
particular `2020-02-10 ↦ 2023-02-10` and `2018-01-01 ↦ 2022-01-01`.
February 29 start dates (and year overflow past 9999) instead raise
`ValueError` — see the counterexample theorem. -/
theorem c5_end_date_three_years_extended :
    (∀ d : Date, validDate d.year d.month d.day = true →
        d.year + 3 ≤ 9999 →
        (d.month = 2 ∧ d.day = 29 → False) →
        get_end_date (some d) = .ok (some (spec_end_date d))) ∧
    get_end_date (some ⟨2020, 2, 10⟩) = .ok (some ⟨2023, 2, 10⟩) ∧
    get_end_date (some ⟨2018, 1, 1⟩) = .ok (some ⟨2022, 1, 1⟩) := by
  refine ⟨?_, by rfl, by rfl⟩
  intro d hv hy hfeb
  obtain ⟨y, m, dd⟩ := d
  simp only at hv hy hfeb
  have hv3 : validDate (y + 3) m dd = true := valid_plus3 hv hy hfeb
  have hbounds := hv3
  simp only [validDate, Bool.and_eq_true, decide_eq_true_eq] at hbounds
  obtain ⟨⟨⟨⟨⟨hb1, hb2⟩, hb3⟩, hb4⟩, hb5⟩, hb6⟩ := hbounds
  have hd31 : dd ≤ 31 := le_trans hb6 (daysInMonth_le_31 _ _)
  simp only [get_end_date, mkDate, hv3, if_true, spec_end_date]
  by_cases h1 : (dateLe ⟨2020, 4, 6⟩ ⟨y + 3, m, dd⟩ &&
      dateLe ⟨y + 3, m, dd⟩ ⟨2021, 1, 1⟩) = true
  · have hw : spec_in_extension_windows ⟨y + 3, m, dd⟩ = true := by
      simp [spec_in_extension_windows, h1]
    have hyb := window_year_bounds hw
    simp only at hyb
    have e1 : 2020 + (y + 3 - 2020) = y + 3 := by omega
    have hvv : validDate (2020 + (y + 3 - 2020)) m dd = true := by rw [e1]; exact hv3
    have hww : spec_in_extension_windows ⟨2020 + (y + 3 - 2020), m, dd⟩ = true := by
      rw [e1]; exact hw
    have hadd := addDays_365_window (y + 3 - 2020) (by omega) m (by omega) dd
      (by omega) hvv hww
    rw [e1] at hadd
    simp [h1, hw, hadd]
  · by_cases h2 : (dateLe ⟨2022, 4, 13⟩ ⟨y + 3, m, dd⟩ &&
        dateLe ⟨y + 3, m, dd⟩ ⟨2023, 1, 1⟩) = true
    · have hw : spec_in_extension_windows ⟨y + 3, m, dd⟩ = true := by
        simp [spec_in_extension_windows, h2]
      have hyb := window_year_bounds hw
      simp only at hyb
      have e1 : 2020 + (y + 3 - 2020) = y + 3 := by omega
      have hvv : validDate (2020 + (y + 3 - 2020)) m dd = true := by rw [e1]; exact hv3
      have hww : spec_in_extension_windows ⟨2020 + (y + 3 - 2020), m, dd⟩ = true := by
        rw [e1]; exact hw
      have hadd := addDays_365_window (y + 3 - 2020) (by omega) m (by omega) dd
        (by omega) hvv hww
      rw [e1] at hadd
      simp [h1, h2, hw, hadd]
    · have hw : spec_in_extension_windows ⟨y + 3, m, dd⟩ = false := by
        simp only [spec_in_extension_windows, Bool.or_eq_false_iff]
        exact ⟨by simpa using h1, by simpa using h2⟩
      simp [h1, h2, hw]

/-- Witness for the amended C5, at the spec's own example `2020-02-10`. -/
theorem c5_end_date_witness :
    get_end_date (some ⟨2020, 2, 10⟩) = .ok (some (spec_end_date ⟨2020, 2, 10⟩)) :=
  c5_end_date_three_years_extended.1 ⟨2020, 2, 10⟩ (by decide) (by decide) (by decide)

/-- Counterexample to C5 as stated: the valid start date 2020-02-29 (and
likewise any year that would overflow 9999) makes
`datetime.date(year + 3, month, day)` raise `ValueError` instead of
producing `start_date + 3 years`. -/
theorem c5_end_date_feb29_raises :
    validDate 2020 2 29 = true ∧
    get_end_date (some ⟨2020, 2, 29⟩) = .error .valueError ∧
    validDate 9998 1 1 = true ∧
    get_end_date (some ⟨9998, 1, 1⟩) = .error .valueError := by
  refine ⟨by decide, by rfl, by decide, by rfl⟩

/-- Claim C4 is a code bug: by Python operator precedence the guard of the
exemption branch in `_postprocess_usekinds` is
`(no codes and "не распространяется" in text) or ("не устанавливается" in text)`,
so the branch that returns `"Нежилая"` with the raw phrase as the code
list is also taken when numeric codes WERE found, as long as the text
contains `"не устанавливается"` — contradicting the specified "only when
no codes are found".  On the failing input below a code `2.1` (which is
even a residential code) is extracted, yet the exemption branch fires. -/
theorem c4_exemption_branch_fires_despite_codes :
    scanCodes ("(2.1) не устанавливается").toList = ["2.1"] ∧
    isLivingCode "2.1" = true ∧
    postprocess_usekinds (some "(2.1) не устанавливается") =
      (some "Нежилая", some "(2.1) не устанавливается") := by
  refine ⟨by decide, by decide, by decide⟩

end OKS
